import Mathlib

/-!
# SmartPack AI: packaging prediction and cost estimation

A shallow embedding of `src/model/smartModel.js` (`predictPackaging`) and of the
pure helpers of `src/App.jsx` (`round1`, `getMaterialProfile`,
`computeBoardWeightG`, `estimateCost`, `recommendBox`).

Numbers.  A JavaScript number is modelled by `JSNum`: a finite value is a rational,
and the three non-finite values `NaN`, `Infinity`, `-Infinity` are kept, because the
code divides by a volume that can be zero.  `-0` is identified with `0`: a zero divisor
is read as `+0`.

The programs are embedded twice.  The first embedding reads `+`, `-`, `*`, `/` as exact
operations on rationals: it is used for the properties that do not depend on binary64
rounding (orderings, clamps, lookups, string fields) or that are stated for inputs of
bounded size and with room for the rounding error.  The second embedding, in the
namespace `F64`, rounds every operation to binary64 and overflows to an infinity, as
the code does: it is used where a result depends on the rounding of a double or on
overflow.
-/

set_option linter.unusedVariables false

namespace SmartPack

/-! ## JavaScript numbers -/

/-- A JavaScript number: an exact finite rational, `NaN`, `Infinity` or `-Infinity`. -/
inductive JSNum where
  | fin (q : ℚ)
  | nan
  | posInf
  | negInf
  deriving DecidableEq

namespace JSNum

/-- Unary minus. -/
def neg : JSNum → JSNum
  | fin q => fin (-q)
  | nan => nan
  | posInf => negInf
  | negInf => posInf

/-- The operator `+` on numbers. -/
def add : JSNum → JSNum → JSNum
  | fin a, fin b => fin (a + b)
  | nan, _ => nan
  | _, nan => nan
  | posInf, negInf => nan
  | negInf, posInf => nan
  | posInf, _ => posInf
  | negInf, _ => negInf
  | _, posInf => posInf
  | _, negInf => negInf

/-- The operator `-` on numbers. -/
def sub (a b : JSNum) : JSNum := add a (neg b)

/-- An infinity (positive when `pos`) multiplied by the finite value `q`. -/
def infTimes (pos : Bool) (q : ℚ) : JSNum :=
  if q = 0 then nan
  else if 0 < q then (if pos then posInf else negInf)
  else (if pos then negInf else posInf)

/-- The operator `*` on numbers. -/
def mul : JSNum → JSNum → JSNum
  | fin a, fin b => fin (a * b)
  | nan, _ => nan
  | _, nan => nan
  | posInf, fin b => infTimes true b
  | negInf, fin b => infTimes false b
  | fin a, posInf => infTimes true a
  | fin a, negInf => infTimes false a
  | posInf, posInf => posInf
  | negInf, negInf => posInf
  | posInf, negInf => negInf
  | negInf, posInf => negInf

/-- The operator `/` on numbers; a finite zero divisor is `+0`. -/
def div : JSNum → JSNum → JSNum
  | fin a, fin b =>
      if b = 0 then (if a = 0 then nan else if 0 < a then posInf else negInf)
      else fin (a / b)
  | nan, _ => nan
  | _, nan => nan
  | fin _, posInf => fin 0
  | fin _, negInf => fin 0
  | posInf, fin b => if 0 ≤ b then posInf else negInf
  | negInf, fin b => if 0 ≤ b then negInf else posInf
  | posInf, posInf => nan
  | posInf, negInf => nan
  | negInf, posInf => nan
  | negInf, negInf => nan

instance : Add JSNum := ⟨add⟩
instance : Sub JSNum := ⟨sub⟩
instance : Mul JSNum := ⟨mul⟩
instance : Div JSNum := ⟨div⟩

/-- The function `Math.round`: the nearest integer, a tie going to the larger one. -/
def round : JSNum → JSNum
  | fin q => fin (Int.floor (q + 1 / 2))
  | nan => nan
  | posInf => posInf
  | negInf => negInf

/-- The function `Math.max` on two arguments. -/
def max : JSNum → JSNum → JSNum
  | nan, _ => nan
  | _, nan => nan
  | posInf, _ => posInf
  | _, posInf => posInf
  | negInf, b => b
  | a, negInf => a
  | fin a, fin b => fin (Max.max a b)

/-- The function `Math.min` on two arguments. -/
def min : JSNum → JSNum → JSNum
  | nan, _ => nan
  | _, nan => nan
  | negInf, _ => negInf
  | _, negInf => negInf
  | posInf, b => b
  | a, posInf => a
  | fin a, fin b => fin (Min.min a b)

/-- The comparison `a < b`; false as soon as one side is `NaN`. -/
def lt : JSNum → JSNum → Bool
  | nan, _ => false
  | _, nan => false
  | fin a, fin b => decide (a < b)
  | negInf, negInf => false
  | negInf, _ => true
  | _, negInf => false
  | posInf, _ => false
  | fin _, posInf => true

/-- The comparison `a <= b`; false as soon as one side is `NaN`. -/
def le : JSNum → JSNum → Bool
  | nan, _ => false
  | _, nan => false
  | fin a, fin b => decide (a ≤ b)
  | negInf, _ => true
  | _, posInf => true
  | posInf, _ => false
  | fin _, negInf => false

/-- The comparison `a > b`. -/
def gt (a b : JSNum) : Bool := lt b a

/-- The comparison `a >= b`. -/
def ge (a b : JSNum) : Bool := le b a

/-- Truthiness of a number: every number but `0` and `NaN`. -/
def truthy : JSNum → Bool
  | fin q => decide (q ≠ 0)
  | nan => false
  | posInf => true
  | negInf => true

/-- The expression `a || b` on numbers. -/
def orElse (a b : JSNum) : JSNum := if a.truthy then a else b

/-- The test `Number.isFinite`. -/
def isFinite : JSNum → Bool
  | fin _ => true
  | _ => false

end JSNum

open JSNum

/-! ## JavaScript values held by a record field -/

/-- A value found in a numeric field of a record: absent (`undefined`), `null`, a
number, or any other value (a string such as the form's initial `''`, a boolean, an
object), which is represented by the number that `ToNumber` yields on it. -/
inductive JSVal where
  | undefined
  | null
  | num (x : JSNum)
  | other (asNumber : JSNum)
  deriving DecidableEq

namespace JSVal

/-- The conversion `ToNumber`, as applied by `Number(v)` and by the arithmetic operators. -/
def toNumber : JSVal → JSNum
  | undefined => nan
  | null => fin 0
  | num x => x
  | other n => n

/-- The expression `v ?? d`. -/
def coalesce (v d : JSVal) : JSVal :=
  match v with
  | undefined => d
  | null => d
  | _ => v

end JSVal

/-- The expression `Number(v) || 0`. -/
def numberOrZero (v : JSVal) : JSNum := (v.toNumber).orElse (fin 0)

/-- Indexing an array with a number: only an integer index within bounds finds an element. -/
def arrayGet {α : Type} (xs : List α) (i : JSNum) : Option α :=
  match i with
  | fin q => if q.den = 1 ∧ 0 ≤ q.num then xs.get? q.num.toNat else none
  | _ => none

/-! ## src/model/smartModel.js -/

/-- Names every object inherits from `Object.prototype`. -/
def objectPrototypeKeys : List String :=
  ["constructor", "__defineGetter__", "__defineSetter__", "hasOwnProperty",
   "__lookupGetter__", "__lookupSetter__", "isPrototypeOf", "propertyIsEnumerable",
   "toString", "valueOf", "__proto__", "toLocaleString"]

/-- The property read `FRAGILITY_MAP[key]` on `{ LOW: 0, MEDIUM: 1, HIGH: 2, EXTREME: 3 }`:
an own key gives its number, an inherited name gives a function or object (not a
number under `ToNumber`), any other key gives `undefined`. -/
def FRAGILITY_MAP (key : String) : JSVal :=
  if key = "LOW" then .num (fin 0)
  else if key = "MEDIUM" then .num (fin 1)
  else if key = "HIGH" then .num (fin 2)
  else if key = "EXTREME" then .num (fin 3)
  else if key ∈ objectPrototypeKeys then .other nan
  else .undefined

/-- An entry of the thickness catalog. -/
structure ThicknessSpec where
  level : ℕ
  type : String
  deriving DecidableEq

/-- The thickness catalog. -/
def THICKNESS_LEVELS : List ThicknessSpec :=
  [ ⟨1, "Single Wall - E Flute"⟩,
    ⟨2, "Single Wall - B Flute"⟩,
    ⟨3, "Single Wall - C Flute"⟩,
    ⟨4, "Double Wall - BC Flute"⟩,
    ⟨5, "Double Wall - EB Flute"⟩,
    ⟨6, "Triple Wall - AAA"⟩,
    ⟨7, "Heavy Duty Industrial"⟩ ]

/-- Coefficient rows (bias, width, height, depth, weight, fragility). -/
def MODEL_WEIGHTS : List (List JSNum) :=
  [ [fin 3, fin 1, fin 0, fin 0, fin (24 / 100), fin 4],
    [fin 3, fin 0, fin 1, fin 0, fin (24 / 100), fin 4],
    [fin 3, fin 0, fin 0, fin 1, fin (24 / 100), fin 4],
    [fin 1, fin 0, fin 0, fin 0, fin (16 / 100), fin (6 / 10)] ]

/-- A product record; `fragility` is `none` when the property is absent. -/
structure Product where
  width : JSVal
  height : JSVal
  depth : JSVal
  weight : JSVal
  fragility : Option String
  deriving DecidableEq

/-- Box dimensions. -/
structure BoxDimensions where
  width : JSNum
  height : JSNum
  depth : JSNum
  deriving DecidableEq

/-- The record returned by `predictPackaging`; `thickness` is `none` when the catalog
lookup finds nothing (`undefined`). -/
structure Prediction where
  dimensions : BoxDimensions
  thickness : Option ThicknessSpec
  utilization : JSNum
  voidPercent : JSNum
  safetyRating : String
  recommendedFill : String
  deriving DecidableEq

/-- The callback chain `row.reduce((sum, w, i) => sum + w * input[i], 0)`, from index `i`
with accumulator `sum`. -/
def rowReduce : List JSNum → ℕ → List JSVal → JSNum → JSNum
  | [], _, _, sum => sum
  | w :: ws, i, input, sum =>
      rowReduce ws (i + 1) input (sum + w * (input.getD i JSVal.undefined).toNumber)

/-- The destructuring default `fragility = 'LOW'`. -/
def fragilityOf (product : Product) : String := product.fragility.getD "LOW"

/-- The constant `fValue = FRAGILITY_MAP[fragility] ?? 0`. -/
def fValue (product : Product) : JSVal :=
  (FRAGILITY_MAP (fragilityOf product)).coalesce (.num (fin 0))

/-- The constant `input`. -/
def modelInput (product : Product) : List JSVal :=
  [.num (fin 1), product.width, product.height, product.depth, product.weight, fValue product]

/-- The constant `predictions`. -/
def predictions (product : Product) : List JSNum :=
  MODEL_WEIGHTS.map (fun row => rowReduce row 0 (modelInput product) (fin 0))

/-- The constant `dimensions`. -/
def predictedDimensions (product : Product) : BoxDimensions :=
  { width := ((predictions product).getD 0 nan * fin 10).round / fin 10
    height := ((predictions product).getD 1 nan * fin 10).round / fin 10
    depth := ((predictions product).getD 2 nan * fin 10).round / fin 10 }

/-- The constant `thickLevel = Math.min(Math.max(Math.round(predThick), 1), 7)`. -/
def thickLevel (product : Product) : JSNum :=
  JSNum.min (JSNum.max ((predictions product).getD 3 nan).round (fin 1)) (fin 7)

/-- The function `predictPackaging`. -/
def predictPackaging (product : Product) : Prediction :=
  let dimensions := predictedDimensions product
  let thickness := arrayGet THICKNESS_LEVELS (thickLevel product - fin 1)
  let productVolume :=
    product.width.toNumber * product.height.toNumber * product.depth.toNumber
  let boxVolume := dimensions.width * dimensions.height * dimensions.depth
  let utilization := ((productVolume / boxVolume) * fin 1000).round / fin 10
  { dimensions := dimensions
    thickness := thickness
    utilization := utilization
    voidPercent := ((fin 100 - utilization) * fin 10).round / fin 10
    safetyRating :=
      if fragilityOf product = "EXTREME" then "Maximum"
      else if fragilityOf product = "HIGH" then "Enhanced" else "Standard"
    recommendedFill :=
      if JSNum.ge (fValue product).toNumber (fin 2) then "Bio-foam inserts"
      else if JSNum.ge (fValue product).toNumber (fin 1) then "Corrugated wraps"
      else "No fill needed" }

/-! ## src/App.jsx -/

/-- The helper `round1 = (value) => Math.round(value * 10) / 10`. -/
def round1 (value : JSNum) : JSNum := (value * fin 10).round / fin 10

/-- A `{ min, max }` band. -/
structure Range where
  min : JSNum
  max : JSNum
  deriving DecidableEq

/-- One of the four material bands. -/
inductive Material where
  | corrugatedThin
  | duplexStandard
  | duplexThick
  | kraftCorrugated
  deriving DecidableEq

/-- The table `MATERIAL_RATES`. -/
def MATERIAL_RATES : Material → Range
  | .corrugatedThin => ⟨fin 15, fin 20⟩
  | .duplexStandard => ⟨fin 40, fin 50⟩
  | .duplexThick => ⟨fin 50, fin 80⟩
  | .kraftCorrugated => ⟨fin 20, fin 35⟩

/-- The table `MATERIAL_GSM`. -/
def MATERIAL_GSM : Material → Range
  | .corrugatedThin => ⟨fin 150, fin 150⟩
  | .duplexStandard => ⟨fin 200, fin 330⟩
  | .duplexThick => ⟨fin 400, fin 450⟩
  | .kraftCorrugated => ⟨fin 100, fin 200⟩

/-- The helper `averageRange`. -/
def averageRange (range : Range) : JSNum := round1 ((range.min + range.max) / fin 2)

/-- A `{ rate, gsm }` material profile. -/
structure MaterialProfile where
  rate : JSNum
  gsm : JSNum
  deriving DecidableEq

/-- The profile built from one band. -/
def profileOf (m : Material) : MaterialProfile :=
  { rate := averageRange (MATERIAL_RATES m), gsm := averageRange (MATERIAL_GSM m) }

/-- The function `getMaterialProfile`; `thicknessLevel` is `none` when the argument is
`undefined`, which the parameter default replaces by `1`. -/
def getMaterialProfile (packagingType : String) (thicknessLevel : Option JSNum) :
    MaterialProfile :=
  let level := (thicknessLevel.getD (fin 1)).orElse (fin 1)
  if packagingType = "Mailer" ∨ packagingType = "Envelope" then
    if JSNum.ge level (fin 5) then profileOf .duplexThick
    else profileOf .duplexStandard
  else if JSNum.le level (fin 2) then profileOf .corrugatedThin
  else if JSNum.le level (fin 4) then profileOf .kraftCorrugated
  else if level = fin 5 then profileOf .duplexStandard
  else profileOf .duplexThick

/-- The function `computeBoardWeightG`. -/
def computeBoardWeightG (box : BoxDimensions) (gsm : JSNum) : JSNum :=
  let w := numberOrZero (.num box.width)
  let h := numberOrZero (.num box.height)
  let d := numberOrZero (.num box.depth)
  let areaCm2 := fin 2 * (w * h + w * d + h * d)
  let areaM2 := areaCm2 / fin 10000
  let scrapFactor := fin (108 / 100)
  round1 (areaM2 * gsm * scrapFactor)

/-- The record returned by `estimateCost`. -/
structure CostBreakdown where
  materialCost : JSNum
  fillerCost : JSNum
  total : JSNum
  boardWeightG : JSNum
  fillerWeightG : JSNum
  deriving DecidableEq

/-- The function `estimateCost`; `thicknessLevel` and `voidSpace` are `none` when the
argument is `undefined`, which the parameter defaults replace by `1` and `0`. -/
def estimateCost (box : BoxDimensions) (packagingType : String)
    (thicknessLevel : Option JSNum) (voidSpace : Option JSNum) : CostBreakdown :=
  let profile := getMaterialProfile packagingType (some (thicknessLevel.getD (fin 1)))
  let boardWeightG := computeBoardWeightG box profile.gsm
  let materialCost := round1 ((boardWeightG / fin 1000) * profile.rate)
  let fillerDensityGPerCm3 := fin (2 / 1000)
  let fillerRatePerKg := fin 80
  let fillerWeightG := round1 (JSNum.max (fin 0) (voidSpace.getD (fin 0)) * fillerDensityGPerCm3)
  let fillerCost := round1 ((fillerWeightG / fin 1000) * fillerRatePerKg)
  let total := round1 (materialCost + fillerCost)
  { materialCost := materialCost
    fillerCost := fillerCost
    total := total
    boardWeightG := boardWeightG
    fillerWeightG := fillerWeightG }

/-- The record returned by `recommendBox`. -/
structure Recommendation where
  box : BoxDimensions
  utilization : JSNum
  voidPercent : JSNum
  voidSpace : JSNum
  recommendedFill : String
  thickness : Option ThicknessSpec
  safetyRating : String
  deriving DecidableEq

/-- The constant `safeProduct` of `recommendBox`. -/
def safeProduct (product : Product) : Product :=
  { product with
    width := .num (numberOrZero product.width)
    height := .num (numberOrZero product.height)
    depth := .num (numberOrZero product.depth)
    weight := .num (numberOrZero product.weight) }

/-- The constant `minClearance` of `recommendBox`. -/
def minClearance (productType : String) : JSNum :=
  if productType = "Paper" then fin (5 / 10) else fin (12 / 10)

/-- The function `recommendBox`; `predictPackaging` ignores the packaging type handed
to it as a second argument. -/
def recommendBox (product : Product) (packagingType : String) (productType : String) :
    Recommendation :=
  let safe := safeProduct product
  let prediction := predictPackaging safe
  let adjustedBox : BoxDimensions :=
    { width := round1 (JSNum.max prediction.dimensions.width
        (safe.width.toNumber + minClearance productType))
      height := round1 (JSNum.max prediction.dimensions.height
        (safe.height.toNumber + minClearance productType))
      depth := round1 (JSNum.max prediction.dimensions.depth
        (safe.depth.toNumber + minClearance productType)) }
  let productVolume := safe.width.toNumber * safe.height.toNumber * safe.depth.toNumber
  let boxVolume := adjustedBox.width * adjustedBox.height * adjustedBox.depth
  let utilization :=
    if JSNum.gt productVolume (fin 0) then round1 ((productVolume / boxVolume) * fin 100)
    else fin 0
  { box := adjustedBox
    utilization := utilization
    voidPercent := round1 (fin 100 - utilization)
    voidSpace := round1 (boxVolume - productVolume)
    recommendedFill := prediction.recommendedFill
    thickness := prediction.thickness
    safetyRating := prediction.safetyRating }

/-- The record `costInfo` built by `ResultsPage`. -/
structure CostInfo where
  aiCost : JSNum
  baselineCost : JSNum
  savings : JSNum
  boardWeightG : JSNum
  fillerWeightG : JSNum
  materialCost : JSNum
  fillerCost : JSNum
  deriving DecidableEq

/-- The baseline comparison of `ResultsPage`, from `recommendation` down to `costInfo`.
The result is `none` when `recommendation.thickness` is `undefined`, where reading
`recommendation.thickness.level` throws. -/
def costInfo (product : Product) (packagingType : String) (category : String) :
    Option CostInfo :=
  let recommendation := recommendBox product packagingType category
  let box := recommendation.box
  let productVolume :=
    numberOrZero product.width * numberOrZero product.height * numberOrZero product.depth
  let baselineBox : BoxDimensions :=
    { width := numberOrZero product.width * fin (12 / 10)
      height := numberOrZero product.height * fin (12 / 10)
      depth := numberOrZero product.depth * fin (12 / 10) }
  match recommendation.thickness with
  | none => none
  | some thickness =>
    let level : JSNum := fin (thickness.level : ℚ)
    let aiCostBreakdown :=
      estimateCost box packagingType (some level) (some recommendation.voidSpace)
    let baselineBoxVolume := baselineBox.width * baselineBox.height * baselineBox.depth
    let baselineVoid := baselineBoxVolume - productVolume
    let baselineCostBreakdown :=
      estimateCost baselineBox packagingType
        (some (JSNum.min (fin 7) (level.orElse (fin 1) + fin 1))) (some baselineVoid)
    let aiCost := aiCostBreakdown.total
    let baselineCost := baselineCostBreakdown.total
    let savings := round1 (JSNum.max (fin 0) (baselineCost - aiCost))
    some
      { aiCost := aiCost
        baselineCost := baselineCost
        savings := savings
        boardWeightG := aiCostBreakdown.boardWeightG
        fillerWeightG := aiCostBreakdown.fillerWeightG
        materialCost := aiCostBreakdown.materialCost
        fillerCost := aiCostBreakdown.fillerCost }

/-! ## Double-precision arithmetic

The code computes in IEEE-754 binary64.  The definitions of this section round every
sum, difference, product and quotient to the nearest binary64 number (ties to even),
with overflow to an infinity and gradual underflow.  `Math.round`, `Math.max`,
`Math.min` and the comparisons are exact on binary64 numbers, so the ones of `JSNum`
are used unchanged.  As before `-0` is identified with `0`. -/

/-- Floor of the base-2 logarithm of a positive natural, by halving at most `fuel` times. -/
def log2Nat : ℕ → ℕ → ℕ
  | 0, _ => 0
  | fuel + 1, n => if n < 2 then 0 else log2Nat fuel (n / 2) + 1

/-- The power `2 ^ e` for an integer exponent. -/
def pow2 (e : ℤ) : ℚ :=
  if 0 ≤ e then ((2 ^ e.toNat : ℕ) : ℚ) else 1 / ((2 ^ (-e).toNat : ℕ) : ℚ)

/-- The exponent `e` with `2 ^ e <= a < 2 ^ (e + 1)`, for a positive rational `a` between
`2 ^ (-2200)` and `2 ^ 2200`. -/
def floorLog2 (a : ℚ) : ℤ :=
  let e0 : ℤ := (log2Nat 2200 a.num.toNat : ℤ) - (log2Nat 2200 a.den : ℤ)
  if pow2 e0 ≤ a then e0 else e0 - 1

/-- Rounding to the nearest integer, a tie going to the even one. -/
def roundEven (x : ℚ) : ℤ :=
  let f := Int.floor x
  if x - f < 1 / 2 then f
  else if 1 / 2 < x - f then f + 1
  else if f % 2 = 0 then f else f + 1

/-- Rounding of an exact value to the nearest binary64 number: 53 significant bits,
least exponent -1022 (so the spacing never goes below `2 ^ (-1074)`), and an infinity
once the rounded magnitude reaches `2 ^ 1024`. -/
def roundDouble (q : ℚ) : JSNum :=
  if q = 0 then fin 0
  else
    let a := |q|
    let e := Max.max (floorLog2 a) (-1022)
    let ulp := pow2 (e - 52)
    let r := (roundEven (a / ulp) : ℚ) * ulp
    if pow2 1024 ≤ r then (if 0 < q then posInf else negInf)
    else fin (if 0 < q then r else -r)

namespace F64

/-- The binary64 number written as the decimal literal `q`. -/
def lit (q : ℚ) : JSNum := roundDouble q

/-- The result of an arithmetic operation: its exact value rounded to binary64. -/
def ofExact : JSNum → JSNum
  | fin q => roundDouble q
  | x => x

/-- The operator `+` in binary64. -/
def add (a b : JSNum) : JSNum := ofExact (JSNum.add a b)

/-- The operator `-` in binary64. -/
def sub (a b : JSNum) : JSNum := ofExact (JSNum.sub a b)

/-- The operator `*` in binary64. -/
def mul (a b : JSNum) : JSNum := ofExact (JSNum.mul a b)

/-- The operator `/` in binary64. -/
def div (a b : JSNum) : JSNum := ofExact (JSNum.div a b)

end F64

/-! ## The programs in double-precision arithmetic

The same programs, line for line, with `+`, `-`, `*` and `/` standing for the binary64
operations `F64.add`, `F64.sub`, `F64.mul` and `F64.div` throughout this section, and
with the decimal constants of the source rounded to binary64 by `F64.lit`. -/

section DoublePrecision

local instance : Add JSNum := ⟨F64.add⟩
local instance : Sub JSNum := ⟨F64.sub⟩
local instance : Mul JSNum := ⟨F64.mul⟩
local instance : Div JSNum := ⟨F64.div⟩

namespace F64

/-- Coefficient rows (bias, width, height, depth, weight, fragility), as binary64 numbers. -/
def MODEL_WEIGHTS : List (List JSNum) :=
  [ [fin 3, fin 1, fin 0, fin 0, lit (24 / 100), fin 4],
    [fin 3, fin 0, fin 1, fin 0, lit (24 / 100), fin 4],
    [fin 3, fin 0, fin 0, fin 1, lit (24 / 100), fin 4],
    [fin 1, fin 0, fin 0, fin 0, lit (16 / 100), lit (6 / 10)] ]

/-- The callback chain `row.reduce((sum, w, i) => sum + w * input[i], 0)`, from index `i`
with accumulator `sum`. -/
def rowReduce : List JSNum → ℕ → List JSVal → JSNum → JSNum
  | [], _, _, sum => sum
  | w :: ws, i, input, sum =>
      rowReduce ws (i + 1) input (sum + w * (input.getD i JSVal.undefined).toNumber)

/-- The constant `predictions`. -/
def predictions (product : Product) : List JSNum :=
  MODEL_WEIGHTS.map (fun row => rowReduce row 0 (modelInput product) (fin 0))

/-- The constant `dimensions`. -/
def predictedDimensions (product : Product) : BoxDimensions :=
  { width := ((predictions product).getD 0 nan * fin 10).round / fin 10
    height := ((predictions product).getD 1 nan * fin 10).round / fin 10
    depth := ((predictions product).getD 2 nan * fin 10).round / fin 10 }

/-- The constant `thickLevel = Math.min(Math.max(Math.round(predThick), 1), 7)`. -/
def thickLevel (product : Product) : JSNum :=
  JSNum.min (JSNum.max ((predictions product).getD 3 nan).round (fin 1)) (fin 7)

/-- The function `predictPackaging`. -/
def predictPackaging (product : Product) : Prediction :=
  let dimensions := predictedDimensions product
  let thickness := arrayGet THICKNESS_LEVELS (thickLevel product - fin 1)
  let productVolume :=
    product.width.toNumber * product.height.toNumber * product.depth.toNumber
  let boxVolume := dimensions.width * dimensions.height * dimensions.depth
  let utilization := ((productVolume / boxVolume) * fin 1000).round / fin 10
  { dimensions := dimensions
    thickness := thickness
    utilization := utilization
    voidPercent := ((fin 100 - utilization) * fin 10).round / fin 10
    safetyRating :=
      if fragilityOf product = "EXTREME" then "Maximum"
      else if fragilityOf product = "HIGH" then "Enhanced" else "Standard"
    recommendedFill :=
      if JSNum.ge (fValue product).toNumber (fin 2) then "Bio-foam inserts"
      else if JSNum.ge (fValue product).toNumber (fin 1) then "Corrugated wraps"
      else "No fill needed" }

/-- The helper `round1 = (value) => Math.round(value * 10) / 10`. -/
def round1 (value : JSNum) : JSNum := (value * fin 10).round / fin 10

/-- The helper `averageRange`. -/
def averageRange (range : Range) : JSNum := round1 ((range.min + range.max) / fin 2)

/-- The profile built from one band. -/
def profileOf (m : Material) : MaterialProfile :=
  { rate := averageRange (MATERIAL_RATES m), gsm := averageRange (MATERIAL_GSM m) }

/-- The function `getMaterialProfile`. -/
def getMaterialProfile (packagingType : String) (thicknessLevel : Option JSNum) :
    MaterialProfile :=
  let level := (thicknessLevel.getD (fin 1)).orElse (fin 1)
  if packagingType = "Mailer" ∨ packagingType = "Envelope" then
    if JSNum.ge level (fin 5) then profileOf .duplexThick
    else profileOf .duplexStandard
  else if JSNum.le level (fin 2) then profileOf .corrugatedThin
  else if JSNum.le level (fin 4) then profileOf .kraftCorrugated
  else if level = fin 5 then profileOf .duplexStandard
  else profileOf .duplexThick

/-- The function `computeBoardWeightG`. -/
def computeBoardWeightG (box : BoxDimensions) (gsm : JSNum) : JSNum :=
  let w := numberOrZero (.num box.width)
  let h := numberOrZero (.num box.height)
  let d := numberOrZero (.num box.depth)
  let areaCm2 := fin 2 * (w * h + w * d + h * d)
  let areaM2 := areaCm2 / fin 10000
  let scrapFactor := lit (108 / 100)
  round1 (areaM2 * gsm * scrapFactor)

/-- The function `estimateCost`. -/
def estimateCost (box : BoxDimensions) (packagingType : String)
    (thicknessLevel : Option JSNum) (voidSpace : Option JSNum) : CostBreakdown :=
  let profile := getMaterialProfile packagingType (some (thicknessLevel.getD (fin 1)))
  let boardWeightG := computeBoardWeightG box profile.gsm
  let materialCost := round1 ((boardWeightG / fin 1000) * profile.rate)
  let fillerDensityGPerCm3 := lit (2 / 1000)
  let fillerRatePerKg := fin 80
  let fillerWeightG := round1 (JSNum.max (fin 0) (voidSpace.getD (fin 0)) * fillerDensityGPerCm3)
  let fillerCost := round1 ((fillerWeightG / fin 1000) * fillerRatePerKg)
  let total := round1 (materialCost + fillerCost)
  { materialCost := materialCost
    fillerCost := fillerCost
    total := total
    boardWeightG := boardWeightG
    fillerWeightG := fillerWeightG }

/-- The constant `minClearance` of `recommendBox`. -/
def minClearance (productType : String) : JSNum :=
  if productType = "Paper" then lit (5 / 10) else lit (12 / 10)

/-- The function `recommendBox`. -/
def recommendBox (product : Product) (packagingType : String) (productType : String) :
    Recommendation :=
  let safe := safeProduct product
  let prediction := predictPackaging safe
  let adjustedBox : BoxDimensions :=
    { width := round1 (JSNum.max prediction.dimensions.width
        (safe.width.toNumber + minClearance productType))
      height := round1 (JSNum.max prediction.dimensions.height
        (safe.height.toNumber + minClearance productType))
      depth := round1 (JSNum.max prediction.dimensions.depth
        (safe.depth.toNumber + minClearance productType)) }
  let productVolume := safe.width.toNumber * safe.height.toNumber * safe.depth.toNumber
  let boxVolume := adjustedBox.width * adjustedBox.height * adjustedBox.depth
  let utilization :=
    if JSNum.gt productVolume (fin 0) then round1 ((productVolume / boxVolume) * fin 100)
    else fin 0
  { box := adjustedBox
    utilization := utilization
    voidPercent := round1 (fin 100 - utilization)
    voidSpace := round1 (boxVolume - productVolume)
    recommendedFill := prediction.recommendedFill
    thickness := prediction.thickness
    safetyRating := prediction.safetyRating }

/-- A product whose four numeric fields hold the binary64 numbers written as the decimal
literals `w`, `h`, `d`, `wt`, and whose fragility is one of the four keys. -/
def product (w h d wt : ℚ) (fragility : String) : Product :=
  { width := .num (lit w), height := .num (lit h), depth := .num (lit d),
    weight := .num (lit wt), fragility := some fragility }

/-- The claim's linear model of one coefficient row, read in binary64: the sum
`0 + c0 * 1 + c1 * x1 + c2 * x2 + c3 * x3 + c4 * x4 + c5 * x5`, taken left to right. -/
def weightedSum (c0 c1 c2 c3 c4 c5 x1 x2 x3 x4 x5 : JSNum) : JSNum :=
  fin 0 + c0 * fin 1 + c1 * x1 + c2 * x2 + c3 * x3 + c4 * x4 + c5 * x5

/-- The claim's board weight formula, read in binary64:
`round1((2 * (w*h + w*d + h*d) / 10000) * gsm * 1.08)`. -/
def boardWeightOf (w h d gsm : JSNum) : JSNum :=
  round1 (fin 2 * (w * h + w * d + h * d) / fin 10000 * gsm * lit (108 / 100))

/-- The claim's material cost formula, read in binary64:
`round1((boardWeightG / 1000) * rate)`. -/
def materialCostOf (boardWeightG rate : JSNum) : JSNum :=
  round1 (boardWeightG / fin 1000 * rate)

end F64

end DoublePrecision

/-- The test that a number is finite and of magnitude at most 1,000,000. -/
def withinMillion : JSNum → Bool
  | fin q => decide (|q| ≤ 1000000)
  | _ => false

/-! ## Inputs used in the statements -/

/-- The four fragility keys of `FRAGILITY_MAP` and `FRAGILITY_LEVELS`. -/
inductive Fragility where
  | LOW
  | MEDIUM
  | HIGH
  | EXTREME
  deriving DecidableEq

/-- The key string of a fragility level. -/
def Fragility.key : Fragility → String
  | .LOW => "LOW"
  | .MEDIUM => "MEDIUM"
  | .HIGH => "HIGH"
  | .EXTREME => "EXTREME"

/-- The ordinal `FRAGILITY_MAP` gives a fragility level. -/
def Fragility.ordinal : Fragility → ℚ
  | .LOW => 0
  | .MEDIUM => 1
  | .HIGH => 2
  | .EXTREME => 3

/-- A product whose four numeric fields hold finite numbers and whose fragility is one
of the four keys. -/
def numericProduct (w h d wt : ℚ) (f : Fragility) : Product :=
  { width := .num (fin w), height := .num (fin h), depth := .num (fin d),
    weight := .num (fin wt), fragility := some f.key }

/-- Rounding of a rational to one decimal, `floor(10 q + 1/2) / 10`: what `round1`
computes on a finite number. -/
def roundTenth (q : ℚ) : ℚ := (Int.floor (q * 10 + 1 / 2) : ℚ) / 10

/-- The clearance stated for a product category: 0.5 for "Paper", 1.2 otherwise. -/
def clearanceFor (category : String) : ℚ := if category = "Paper" then 5 / 10 else 12 / 10

/-! ## Arithmetic of finite numbers -/

@[simp] theorem fin_add_fin (a b : ℚ) : fin a + fin b = fin (a + b) := rfl

@[simp] theorem fin_sub_fin (a b : ℚ) : fin a - fin b = fin (a - b) := by
  show JSNum.add (fin a) (JSNum.neg (fin b)) = _
  simp [JSNum.add, JSNum.neg, sub_eq_add_neg]

@[simp] theorem fin_mul_fin (a b : ℚ) : fin a * fin b = fin (a * b) := rfl

theorem fin_div_fin (a b : ℚ) (hb : b ≠ 0) : fin a / fin b = fin (a / b) := by
  show JSNum.div (fin a) (fin b) = _
  simp [JSNum.div, hb]

@[simp] theorem fin_div_ten (a : ℚ) : fin a / fin 10 = fin (a / 10) :=
  fin_div_fin a 10 (by norm_num)

@[simp] theorem fin_div_thousand (a : ℚ) : fin a / fin 1000 = fin (a / 1000) :=
  fin_div_fin a 1000 (by norm_num)

@[simp] theorem round_fin (a : ℚ) : (fin a).round = fin (Int.floor (a + 1 / 2)) := rfl

@[simp] theorem round1_fin (a : ℚ) : round1 (fin a) = fin (roundTenth a) := by
  simp [round1, roundTenth]

@[simp] theorem max_fin_fin (a b : ℚ) : JSNum.max (fin a) (fin b) = fin (Max.max a b) := rfl

@[simp] theorem min_fin_fin (a b : ℚ) : JSNum.min (fin a) (fin b) = fin (Min.min a b) := rfl

@[simp] theorem le_fin_fin (a b : ℚ) : JSNum.le (fin a) (fin b) = decide (a ≤ b) := rfl

@[simp] theorem lt_fin_fin (a b : ℚ) : JSNum.lt (fin a) (fin b) = decide (a < b) := rfl

@[simp] theorem ge_fin_fin (a b : ℚ) : JSNum.ge (fin a) (fin b) = decide (b ≤ a) := rfl

@[simp] theorem gt_fin_fin (a b : ℚ) : JSNum.gt (fin a) (fin b) = decide (b < a) := rfl

@[simp] theorem numberOrZero_fin (a : ℚ) : numberOrZero (.num (fin a)) = fin a := by
  by_cases h : a = 0 <;> simp [numberOrZero, JSVal.toNumber, JSNum.orElse, JSNum.truthy, h]

/-! ## Rounding to one decimal -/

theorem roundTenth_ge (q : ℚ) : q - 1 / 20 ≤ roundTenth q := by
  have h := Int.lt_floor_add_one (q * 10 + 1 / 2)
  unfold roundTenth
  rw [le_div_iff₀ (by norm_num : (0 : ℚ) < 10)]
  linarith

theorem roundTenth_le (q : ℚ) : roundTenth q ≤ q + 1 / 20 := by
  have h := Int.floor_le (q * 10 + 1 / 2)
  unfold roundTenth
  rw [div_le_iff₀ (by norm_num : (0 : ℚ) < 10)]
  linarith

theorem roundTenth_mono {a b : ℚ} (h : a ≤ b) : roundTenth a ≤ roundTenth b := by
  unfold roundTenth
  have h1 : Int.floor (a * 10 + 1 / 2) ≤ Int.floor (b * 10 + 1 / 2) :=
    Int.floor_mono (by linarith)
  have h2 : ((Int.floor (a * 10 + 1 / 2) : ℤ) : ℚ) ≤ (Int.floor (b * 10 + 1 / 2) : ℤ) := by
    exact_mod_cast h1
  exact div_le_div_of_nonneg_right h2 (by norm_num)

theorem roundTenth_tenth (n : ℤ) : roundTenth ((n : ℚ) / 10) = (n : ℚ) / 10 := by
  unfold roundTenth
  have h : (n : ℚ) / 10 * 10 + 1 / 2 = (n : ℚ) + 1 / 2 := by ring
  rw [h]
  have h2 : Int.floor ((n : ℚ) + 1 / 2) = n := by
    rw [Int.floor_eq_iff]
    constructor <;> norm_num
  rw [h2]

theorem roundTenth_idem (q : ℚ) : roundTenth (roundTenth q) = roundTenth q := by
  have h : roundTenth q = ((Int.floor (q * 10 + 1 / 2) : ℤ) : ℚ) / 10 := rfl
  rw [h, roundTenth_tenth]

/-! ## The model on numeric products -/

theorem fValue_key (w h d wt : JSVal) (f : Fragility) :
    fValue ⟨w, h, d, wt, some f.key⟩ = .num (fin f.ordinal) := by
  cases f <;>
    simp [fValue, fragilityOf, Fragility.key, Fragility.ordinal, FRAGILITY_MAP, JSVal.coalesce]

theorem ordinal_nonneg (f : Fragility) : 0 ≤ f.ordinal := by
  cases f <;> simp [Fragility.ordinal]

theorem predictions_numeric (w h d wt : ℚ) (f : Fragility) :
    predictions (numericProduct w h d wt f) =
      [ fin (3 + w + 24 / 100 * wt + 4 * f.ordinal),
        fin (3 + h + 24 / 100 * wt + 4 * f.ordinal),
        fin (3 + d + 24 / 100 * wt + 4 * f.ordinal),
        fin (1 + 16 / 100 * wt + 6 / 10 * f.ordinal) ] := by
  simp [predictions, MODEL_WEIGHTS, modelInput, numericProduct, fValue_key, rowReduce,
    JSVal.toNumber]

theorem predictedDimensions_numeric (w h d wt : ℚ) (f : Fragility) :
    predictedDimensions (numericProduct w h d wt f) =
      { width := fin (roundTenth (3 + w + 24 / 100 * wt + 4 * f.ordinal))
        height := fin (roundTenth (3 + h + 24 / 100 * wt + 4 * f.ordinal))
        depth := fin (roundTenth (3 + d + 24 / 100 * wt + 4 * f.ordinal)) } := by
  simp [predictedDimensions, predictions_numeric, roundTenth]

theorem safeProduct_numeric (w h d wt : ℚ) (f : Fragility) :
    safeProduct (numericProduct w h d wt f) = numericProduct w h d wt f := by
  simp [safeProduct, numericProduct]

theorem recommendBox_box_numeric (w h d wt : ℚ) (f : Fragility) (packagingType category : String) :
    (recommendBox (numericProduct w h d wt f) packagingType category).box =
      { width := fin (roundTenth (Max.max (roundTenth (3 + w + 24 / 100 * wt + 4 * f.ordinal))
          (w + clearanceFor category)))
        height := fin (roundTenth (Max.max (roundTenth (3 + h + 24 / 100 * wt + 4 * f.ordinal))
          (h + clearanceFor category)))
        depth := fin (roundTenth (Max.max (roundTenth (3 + d + 24 / 100 * wt + 4 * f.ordinal))
          (d + clearanceFor category))) } := by
  simp only [recommendBox, safeProduct_numeric, predictPackaging, predictedDimensions_numeric]
  by_cases hc : category = "Paper" <;>
    simp [numericProduct, JSVal.toNumber, minClearance, clearanceFor, hc]

/-! ## Clearance of the recommended box -/

theorem clearanceFor_le (category : String) : clearanceFor category ≤ 12 / 10 := by
  unfold clearanceFor
  split <;> norm_num

theorem floor_holds (x wt o c : ℚ) (hwt : 0 ≤ wt) (ho : 0 ≤ o) (hc : c ≤ 12 / 10) :
    roundTenth (Max.max (roundTenth (3 + x + 24 / 100 * wt + 4 * o)) (x + c)) =
        roundTenth (3 + x + 24 / 100 * wt + 4 * o) ∧
      x + c ≤ roundTenth (3 + x + 24 / 100 * wt + 4 * o) := by
  have h1 := roundTenth_ge (3 + x + 24 / 100 * wt + 4 * o)
  have h2 : x + c ≤ roundTenth (3 + x + 24 / 100 * wt + 4 * o) := by linarith
  exact ⟨by rw [max_eq_left h2, roundTenth_idem], h2⟩

theorem floor_slack (p x c : ℚ) : x + c - 1 / 20 ≤ roundTenth (Max.max p (x + c)) := by
  have h1 := roundTenth_ge (Max.max p (x + c))
  have h2 : x + c ≤ Max.max p (x + c) := le_max_right _ _
  linarith

/-- C1: for a product with positive width, height and depth and non-negative weight, every
fragility, packaging type and category, each dimension of the box returned by
`recommendBox` is a finite number at least the product dimension plus the clearance
(0.5 for "Paper", 1.2 otherwise). -/
theorem recommendBox_box_ge_clearance (w h d wt : ℚ) (hw : 0 < w) (hh : 0 < h) (hd : 0 < d)
    (hwt : 0 ≤ wt) (f : Fragility) (packagingType category : String) :
    ∃ bw bh bd : ℚ,
      (recommendBox (numericProduct w h d wt f) packagingType category).box
          = ⟨fin bw, fin bh, fin bd⟩ ∧
        w + clearanceFor category ≤ bw ∧ h + clearanceFor category ≤ bh ∧
          d + clearanceFor category ≤ bd := by
  have ho := ordinal_nonneg f
  have hc := clearanceFor_le category
  refine ⟨_, _, _, recommendBox_box_numeric w h d wt f packagingType category, ?_, ?_, ?_⟩
  · rw [(floor_holds w wt f.ordinal _ hwt ho hc).1]
    exact (floor_holds w wt f.ordinal _ hwt ho hc).2
  · rw [(floor_holds h wt f.ordinal _ hwt ho hc).1]
    exact (floor_holds h wt f.ordinal _ hwt ho hc).2
  · rw [(floor_holds d wt f.ordinal _ hwt ho hc).1]
    exact (floor_holds d wt f.ordinal _ hwt ho hc).2

/-- Witness of C1 at the product 10 x 5 x 3 of weight 0.5, fragility LOW, category Glass. -/
theorem recommendBox_box_ge_clearance_witness :
    ∃ bw bh bd : ℚ,
      (recommendBox (numericProduct 10 5 3 (1 / 2) .LOW) "Box" "Glass").box
          = ⟨fin bw, fin bh, fin bd⟩ ∧
        10 + clearanceFor "Glass" ≤ bw ∧ 5 + clearanceFor "Glass" ≤ bh ∧
          3 + clearanceFor "Glass" ≤ bd :=
  recommendBox_box_ge_clearance 10 5 3 (1 / 2) (by norm_num) (by norm_num) (by norm_num)
    (by norm_num) .LOW "Box" "Glass"

/-- C2 fails as stated: for width 0.04 and weight -10 (fragility LOW, category Glass) the
model predicts width 0.6, the floor 0.04 + 1.2 = 1.24 applies, and the final `round1`
returns 1.2, which is below 1.24. -/
theorem recommendBox_round_undershoots :
    (recommendBox (numericProduct (4 / 100) 1 1 (-10) .LOW) "Box" "Glass").box.width
        = fin (12 / 10) ∧
      JSNum.ge (recommendBox (numericProduct (4 / 100) 1 1 (-10) .LOW) "Box" "Glass").box.width
        (fin (4 / 100) + fin (12 / 10)) = false := by
  decide!

/-- C2 (amended): for every product whose width, height, depth and weight are finite
numbers of magnitude at most 1,000,000 (negative values included), every fragility,
packaging type and category, each dimension of the box returned by `recommendBox` is a
finite number at least the product dimension plus the clearance minus 0.06: the final
`round1` can take a dimension below product + clearance, by 0.05 and the rounding error
of the doubles. -/
theorem recommendBox_box_clearance_bounded (w h d wt : ℚ) (f : Fragility)
    (packagingType category : String)
    (hw : |w| ≤ 1000000) (hh : |h| ≤ 1000000) (hd : |d| ≤ 1000000) (hwt : |wt| ≤ 1000000) :
    ∃ bw bh bd : ℚ,
      (recommendBox (numericProduct w h d wt f) packagingType category).box
          = ⟨fin bw, fin bh, fin bd⟩ ∧
        w + clearanceFor category - 6 / 100 ≤ bw ∧ h + clearanceFor category - 6 / 100 ≤ bh ∧
          d + clearanceFor category - 6 / 100 ≤ bd := by
  refine ⟨_, _, _, recommendBox_box_numeric w h d wt f packagingType category, ?_, ?_, ?_⟩
  · have h1 := floor_slack (roundTenth (3 + w + 24 / 100 * wt + 4 * f.ordinal)) w
      (clearanceFor category)
    linarith
  · have h1 := floor_slack (roundTenth (3 + h + 24 / 100 * wt + 4 * f.ordinal)) h
      (clearanceFor category)
    linarith
  · have h1 := floor_slack (roundTenth (3 + d + 24 / 100 * wt + 4 * f.ordinal)) d
      (clearanceFor category)
    linarith

/-- Witness of C2 (amended) at width 0.04, height 1, depth 1, weight -10, fragility LOW,
category Glass, where the returned width 1.2 is below 0.04 + 1.2. -/
theorem recommendBox_box_clearance_bounded_witness :
    ∃ bw bh bd : ℚ,
      (recommendBox (numericProduct (4 / 100) 1 1 (-10) .LOW) "Box" "Glass").box
          = ⟨fin bw, fin bh, fin bd⟩ ∧
        4 / 100 + clearanceFor "Glass" - 6 / 100 ≤ bw ∧ 1 + clearanceFor "Glass" - 6 / 100 ≤ bh ∧
          1 + clearanceFor "Glass" - 6 / 100 ≤ bd :=
  recommendBox_box_clearance_bounded (4 / 100) 1 1 (-10) .LOW "Box" "Glass"
    (by norm_num [abs_le]) (by norm_num [abs_le]) (by norm_num [abs_le])
    (by norm_num [abs_le])

/-- The size limit and the room of 0.01 in C2 (amended) are needed in binary64: at width
1e308 the returned width is `Infinity`; at width 9.7e20 it is 969999999999999868928, below
the width; and at width 1.15, weight -10 the sum `1.15 + 1.2` is 2.3499999999999996, the
returned width is the double 2.3, which lies below `1.15 + 1.2 - 0.05`.  At width 0.04
and weight -10 the doubles return the width 1.2, like the exact reading. -/
theorem recommendBox_box_large_width :
    (F64.recommendBox (F64.product (10 ^ 308) 5 3 (1 / 2) "LOW") "Box" "Glass").box.width
        = posInf ∧
      F64.lit (97 * 10 ^ 19) = fin (97 * 10 ^ 19) ∧
      (F64.recommendBox (F64.product (97 * 10 ^ 19) 5 3 0 "LOW") "Box" "Glass").box.width
        = fin 969999999999999868928 ∧
      (969999999999999868928 : ℚ) < 97 * 10 ^ 19 ∧
      (F64.recommendBox (F64.product (115 / 100) 1 1 (-10) "LOW") "Box" "Glass").box.width
        = F64.lit (23 / 10) ∧
      F64.lit (23 / 10) = fin (2589569785738035 / 1125899906842624) ∧
      (2589569785738035 / 1125899906842624 : ℚ) < 115 / 100 + 12 / 10 - 5 / 100 ∧
      (F64.recommendBox (F64.product (4 / 100) 1 1 (-10) "LOW") "Box" "Glass").box.width
        = F64.lit (12 / 10) := by
  decide!

/-! ## Thickness level -/

theorem thickLevel_numeric (w h d wt : ℚ) (f : Fragility) :
    thickLevel (numericProduct w h d wt f) =
      fin (Min.min (Max.max ((Int.floor (1 + 16 / 100 * wt + 6 / 10 * f.ordinal + 1 / 2) : ℤ) : ℚ)
        1) 7) := by
  simp [thickLevel, predictions_numeric]

theorem clamp_is_level (n : ℤ) :
    ∃ k : ℕ, 1 ≤ k ∧ k ≤ 7 ∧ Min.min (Max.max (n : ℚ) 1) 7 = (k : ℚ) := by
  refine ⟨(Min.min (Max.max n 1) 7).toNat, ?_, ?_, ?_⟩
  · omega
  · omega
  · have h : (0 : ℤ) ≤ Min.min (Max.max n 1) 7 := by omega
    have h2 : (((Min.min (Max.max n 1) 7).toNat : ℤ) : ℚ) = ((Min.min (Max.max n 1) 7 : ℤ) : ℚ) := by
      rw [Int.toNat_of_nonneg h]
    have h3 : (((Min.min (Max.max n 1) 7).toNat : ℕ) : ℚ) = (((Min.min (Max.max n 1) 7).toNat : ℤ) : ℚ) := by
      norm_cast
    rw [h3, h2]
    push_cast
    rfl

theorem catalog_lookup (k : ℕ) (h1 : 1 ≤ k) (h7 : k ≤ 7) :
    ∃ t : ThicknessSpec, THICKNESS_LEVELS.get? (k - 1) = some t ∧
      arrayGet THICKNESS_LEVELS (fin (k : ℚ) - fin 1) = some t ∧ t.level = k := by
  interval_cases k <;> simp [THICKNESS_LEVELS, arrayGet] <;> norm_num <;> rfl

theorem thickness_numeric (w h d wt : ℚ) (f : Fragility) :
    ∃ k : ℕ, 1 ≤ k ∧ k ≤ 7 ∧ thickLevel (numericProduct w h d wt f) = fin (k : ℚ) ∧
      ∃ t : ThicknessSpec, THICKNESS_LEVELS.get? (k - 1) = some t ∧
        (predictPackaging (numericProduct w h d wt f)).thickness = some t ∧ t.level = k := by
  obtain ⟨k, h1, h7, hk⟩ :=
    clamp_is_level (Int.floor (1 + 16 / 100 * wt + 6 / 10 * f.ordinal + 1 / 2))
  obtain ⟨t, ht, ha, hl⟩ := catalog_lookup k h1 h7
  refine ⟨k, h1, h7, ?_, t, ht, ?_, hl⟩
  · rw [thickLevel_numeric, hk]
  · show arrayGet THICKNESS_LEVELS (thickLevel (numericProduct w h d wt f) - fin 1) = some t
    rw [thickLevel_numeric, hk, ha]

/-- C3: for every product with finite numeric fields and every fragility level,
`predictPackaging` computes an integer thickness level between 1 and 7, the lookup
`THICKNESS_LEVELS[level - 1]` finds an entry, the `level` field of the entry returned is
that level, and the catalog lists the levels 1 to 7 in order. -/
theorem predictPackaging_thickness_in_range (w h d wt : ℚ) (f : Fragility) :
    (∃ k : ℕ, 1 ≤ k ∧ k ≤ 7 ∧ thickLevel (numericProduct w h d wt f) = fin (k : ℚ) ∧
      ∃ t : ThicknessSpec, THICKNESS_LEVELS.get? (k - 1) = some t ∧
        (predictPackaging (numericProduct w h d wt f)).thickness = some t ∧ t.level = k) ∧
      THICKNESS_LEVELS.map ThicknessSpec.level = [1, 2, 3, 4, 5, 6, 7] :=
  ⟨thickness_numeric w h d wt f, rfl⟩

/-! ## Utilization -/

@[simp] theorem numericProduct_width (w h d wt : ℚ) (f : Fragility) :
    (numericProduct w h d wt f).width = .num (fin w) := rfl

@[simp] theorem numericProduct_height (w h d wt : ℚ) (f : Fragility) :
    (numericProduct w h d wt f).height = .num (fin h) := rfl

@[simp] theorem numericProduct_depth (w h d wt : ℚ) (f : Fragility) :
    (numericProduct w h d wt f).depth = .num (fin d) := rfl

@[simp] theorem numericProduct_weight (w h d wt : ℚ) (f : Fragility) :
    (numericProduct w h d wt f).weight = .num (fin wt) := rfl

@[simp] theorem toNumber_num (x : JSNum) : (JSVal.num x).toNumber = x := rfl

theorem predicted_pos (x wt o : ℚ) (hx : 0 ≤ x) (hwt : 0 ≤ wt) (ho : 0 ≤ o) :
    0 < roundTenth (3 + x + 24 / 100 * wt + 4 * o) := by
  have h := roundTenth_ge (3 + x + 24 / 100 * wt + 4 * o)
  linarith

theorem predictPackaging_utilization_numeric (w h d wt : ℚ) (f : Fragility)
    (hb : roundTenth (3 + w + 24 / 100 * wt + 4 * f.ordinal) *
        roundTenth (3 + h + 24 / 100 * wt + 4 * f.ordinal) *
        roundTenth (3 + d + 24 / 100 * wt + 4 * f.ordinal) ≠ 0) :
    (predictPackaging (numericProduct w h d wt f)).utilization =
      fin ((Int.floor (w * h * d / (roundTenth (3 + w + 24 / 100 * wt + 4 * f.ordinal) *
        roundTenth (3 + h + 24 / 100 * wt + 4 * f.ordinal) *
        roundTenth (3 + d + 24 / 100 * wt + 4 * f.ordinal)) * 1000 + 1 / 2) : ℤ) / 10) := by
  simp only [predictPackaging, predictedDimensions_numeric, numericProduct_width,
    numericProduct_height, numericProduct_depth, toNumber_num, fin_mul_fin]
  rw [fin_div_fin _ _ hb]
  simp

theorem predictPackaging_voidPercent (p : Product) :
    (predictPackaging p).voidPercent =
      ((fin 100 - (predictPackaging p).utilization) * fin 10).round / fin 10 := rfl

theorem recommendBox_utilization_zero (w h d wt : ℚ) (f : Fragility)
    (packagingType category : String) (hv : w * h * d ≤ 0) :
    (recommendBox (numericProduct w h d wt f) packagingType category).utilization = fin 0 ∧
      (recommendBox (numericProduct w h d wt f) packagingType category).voidPercent
        = fin 100 := by
  have hr : roundTenth 100 = 100 := by norm_num [roundTenth]
  have hn : ¬ 0 < w * h * d := not_lt.mpr hv
  simp [recommendBox, safeProduct_numeric, hn, hr]

/-- C4 fails as stated: for width 1e200, height 1e200, depth 0, weight 0 and fragility
LOW the product `width * height` overflows to `Infinity`, `Infinity * 0` is `NaN`, and
`predictPackaging` returns the utilization `NaN` and the voidPercent `NaN` in binary64
(`recommendBox` still returns 0 and 100 there). -/
theorem predictPackaging_zero_volume_overflow :
    F64.mul (F64.lit (10 ^ 200)) (F64.lit (10 ^ 200)) = posInf ∧
      (F64.predictPackaging (F64.product (10 ^ 200) (10 ^ 200) 0 0 "LOW")).utilization = nan ∧
      (F64.predictPackaging (F64.product (10 ^ 200) (10 ^ 200) 0 0 "LOW")).voidPercent = nan ∧
      (F64.recommendBox (F64.product (10 ^ 200) (10 ^ 200) 0 0 "LOW") "Box"
        "Glass").utilization = fin 0 ∧
      (F64.recommendBox (F64.product (10 ^ 200) (10 ^ 200) 0 0 "LOW") "Box"
        "Glass").voidPercent = fin 100 := by
  decide!

/-- C4 (amended): for a product with non-negative width, height, depth and weight, none
above 1,000,000 (so that no product of two of them overflows), one of whose dimensions
is 0, `predictPackaging` and `recommendBox` both return utilization 0 and voidPercent
100. -/
theorem zero_volume_utilization_bounded (w h d wt : ℚ) (hw : 0 ≤ w) (hh : 0 ≤ h)
    (hd : 0 ≤ d) (hwt : 0 ≤ wt) (bw : w ≤ 1000000) (bh : h ≤ 1000000) (bd : d ≤ 1000000)
    (bwt : wt ≤ 1000000) (hz : w = 0 ∨ h = 0 ∨ d = 0) (f : Fragility)
    (packagingType category : String) :
    (predictPackaging (numericProduct w h d wt f)).utilization = fin 0 ∧
      (predictPackaging (numericProduct w h d wt f)).voidPercent = fin 100 ∧
      (recommendBox (numericProduct w h d wt f) packagingType category).utilization = fin 0 ∧
      (recommendBox (numericProduct w h d wt f) packagingType category).voidPercent
        = fin 100 := by
  have ho := ordinal_nonneg f
  have hv : w * h * d = 0 := by
    rcases hz with h0 | h0 | h0 <;> simp [h0]
  have hb : roundTenth (3 + w + 24 / 100 * wt + 4 * f.ordinal) *
      roundTenth (3 + h + 24 / 100 * wt + 4 * f.ordinal) *
      roundTenth (3 + d + 24 / 100 * wt + 4 * f.ordinal) ≠ 0 :=
    ne_of_gt (mul_pos (mul_pos (predicted_pos w wt _ hw hwt ho) (predicted_pos h wt _ hh hwt ho))
      (predicted_pos d wt _ hd hwt ho))
  have hu : (predictPackaging (numericProduct w h d wt f)).utilization = fin 0 := by
    rw [predictPackaging_utilization_numeric w h d wt f hb, hv]
    norm_num
  refine ⟨hu, ?_, recommendBox_utilization_zero w h d wt f packagingType category (le_of_eq hv)⟩
  rw [predictPackaging_voidPercent, hu]
  norm_num

/-- Witness of C4 (amended) at the product 0 x 5 x 3 of weight 0.5, fragility HIGH. -/
theorem zero_volume_utilization_bounded_witness :
    (predictPackaging (numericProduct 0 5 3 (1 / 2) .HIGH)).utilization = fin 0 ∧
      (predictPackaging (numericProduct 0 5 3 (1 / 2) .HIGH)).voidPercent = fin 100 ∧
      (recommendBox (numericProduct 0 5 3 (1 / 2) .HIGH) "Box" "Paper").utilization = fin 0 ∧
      (recommendBox (numericProduct 0 5 3 (1 / 2) .HIGH) "Box" "Paper").voidPercent
        = fin 100 :=
  zero_volume_utilization_bounded 0 5 3 (1 / 2) (by norm_num) (by norm_num) (by norm_num)
    (by norm_num) (by norm_num) (by norm_num) (by norm_num) (by norm_num) (Or.inl rfl) .HIGH
    "Box" "Paper"

theorem zero_divisor_not_finite (a : ℚ) :
    (((fin a / fin 0) * fin 1000).round / fin 10).isFinite = false := by
  show (JSNum.div (JSNum.mul (JSNum.div (fin a) (fin 0)) (fin 1000)).round (fin 10)).isFinite
    = false
  by_cases h0 : a = 0
  · simp [JSNum.div, JSNum.mul, JSNum.round, JSNum.isFinite, h0]
  · by_cases hp : 0 < a <;>
      simp [JSNum.div, JSNum.mul, JSNum.round, JSNum.isFinite, JSNum.infTimes, h0, hp]

/-- C5 fails as stated: for width -3, height 1, depth 1, weight 0 and fragility LOW the
predicted width is 0, so the predicted box volume is 0, and `predictPackaging` returns
the utilization `-Infinity`, not 0. -/
theorem predictPackaging_division_unguarded :
    (predictPackaging (numericProduct (-3) 1 1 0 .LOW)).dimensions.width = fin 0 ∧
      (predictPackaging (numericProduct (-3) 1 1 0 .LOW)).dimensions.width *
        (predictPackaging (numericProduct (-3) 1 1 0 .LOW)).dimensions.height *
        (predictPackaging (numericProduct (-3) 1 1 0 .LOW)).dimensions.depth = fin 0 ∧
      (predictPackaging (numericProduct (-3) 1 1 0 .LOW)).utilization = negInf ∧
      (predictPackaging (numericProduct (-3) 1 1 0 .LOW)).utilization ≠ fin 0 := by
  decide!

theorem div_zero_cases (x : JSNum) :
    JSNum.div x (fin 0) = nan ∨ JSNum.div x (fin 0) = posInf ∨ JSNum.div x (fin 0) = negInf := by
  cases x with
  | fin a =>
    by_cases h0 : a = 0
    · simp [JSNum.div, h0]
    · by_cases hp : 0 < a <;> simp [JSNum.div, h0, hp]
  | nan => simp [JSNum.div]
  | posInf => simp [JSNum.div]
  | negInf => simp [JSNum.div]

theorem utilization_of_zero_volume (x : JSNum) :
    ((x / fin 0 * fin 1000).round / fin 10).isFinite = false ∧
      (x / fin 0 * fin 1000).round / fin 10 ≠ fin 0 ∧
      (F64.div (F64.mul (F64.div x (fin 0)) (fin 1000)).round (fin 10)).isFinite = false ∧
      F64.div (F64.mul (F64.div x (fin 0)) (fin 1000)).round (fin 10) ≠ fin 0 := by
  have e1 : x / fin 0 = JSNum.div x (fin 0) := rfl
  have e2 : F64.div x (fin 0) = F64.ofExact (JSNum.div x (fin 0)) := rfl
  rw [e1, e2]
  rcases div_zero_cases x with h | h | h <;> rw [h] <;> decide!

/-- C5 (amended): `predictPackaging` does not guard its utilization division.  The
utilization is `Math.round((productVolume / boxVolume) * 1000) / 10` whatever the box
volume, and for every product, whenever the predicted box volume (the product of the
three rounded predicted dimensions) is 0, the returned utilization is not a finite
number (it is `NaN`, `Infinity` or `-Infinity`), so it is not 0; this holds in the
exact reading and in binary64. -/
theorem predictPackaging_zero_box_volume (p : Product) :
    ((predictPackaging p).dimensions.width * (predictPackaging p).dimensions.height *
        (predictPackaging p).dimensions.depth = fin 0 →
      (predictPackaging p).utilization.isFinite = false ∧
        (predictPackaging p).utilization ≠ fin 0) ∧
    (F64.mul (F64.mul (F64.predictPackaging p).dimensions.width
        (F64.predictPackaging p).dimensions.height)
        (F64.predictPackaging p).dimensions.depth = fin 0 →
      (F64.predictPackaging p).utilization.isFinite = false ∧
        (F64.predictPackaging p).utilization ≠ fin 0) ∧
    (F64.predictPackaging p).utilization =
      F64.div (F64.mul (F64.div
        (F64.mul (F64.mul p.width.toNumber p.height.toNumber) p.depth.toNumber)
        (F64.mul (F64.mul (F64.predictPackaging p).dimensions.width
          (F64.predictPackaging p).dimensions.height)
          (F64.predictPackaging p).dimensions.depth)) (fin 1000)).round (fin 10) := by
  refine ⟨?_, ?_, rfl⟩
  · intro hb
    have hu : (predictPackaging p).utilization =
        ((p.width.toNumber * p.height.toNumber * p.depth.toNumber) /
          ((predictPackaging p).dimensions.width * (predictPackaging p).dimensions.height *
            (predictPackaging p).dimensions.depth) * fin 1000).round / fin 10 := rfl
    rw [hu, hb]
    exact ⟨(utilization_of_zero_volume _).1, (utilization_of_zero_volume _).2.1⟩
  · intro hb
    have hu : (F64.predictPackaging p).utilization =
        F64.div (F64.mul (F64.div
          (F64.mul (F64.mul p.width.toNumber p.height.toNumber) p.depth.toNumber)
          (F64.mul (F64.mul (F64.predictPackaging p).dimensions.width
            (F64.predictPackaging p).dimensions.height)
            (F64.predictPackaging p).dimensions.depth)) (fin 1000)).round (fin 10) := rfl
    rw [hu, hb]
    exact ⟨(utilization_of_zero_volume _).2.2.1, (utilization_of_zero_volume _).2.2.2⟩

/-- Witness of C5 (amended) at width -3, height 1, depth 1, weight 0, fragility LOW, where
the predicted width and so the box volume are 0. -/
theorem predictPackaging_zero_box_volume_witness :
    ((predictPackaging (numericProduct (-3) 1 1 0 .LOW)).utilization.isFinite = false ∧
        (predictPackaging (numericProduct (-3) 1 1 0 .LOW)).utilization ≠ fin 0) ∧
    ((F64.predictPackaging (numericProduct (-3) 1 1 0 .LOW)).utilization.isFinite = false ∧
        (F64.predictPackaging (numericProduct (-3) 1 1 0 .LOW)).utilization ≠ fin 0) :=
  ⟨(predictPackaging_zero_box_volume (numericProduct (-3) 1 1 0 .LOW)).1 (by decide!),
    (predictPackaging_zero_box_volume (numericProduct (-3) 1 1 0 .LOW)).2.1 (by decide!)⟩

/-! ## Coercion of missing and non-numeric fields -/

theorem recommendBox_of_safeProduct (p q : Product) (packagingType category : String)
    (h : safeProduct p = safeProduct q) :
    recommendBox p packagingType category = recommendBox q packagingType category := by
  simp only [recommendBox, h]

theorem numberOrZero_of_isFinite (v : JSVal) (h : (numberOrZero v).isFinite = true) :
    ∃ q : ℚ, numberOrZero v = fin q := by
  cases hv : numberOrZero v with
  | fin q => exact ⟨q, rfl⟩
  | nan => simp [hv, JSNum.isFinite] at h
  | posInf => simp [hv, JSNum.isFinite] at h
  | negInf => simp [hv, JSNum.isFinite] at h

theorem numberOrZero_replaced (v v' : JSVal)
    (h : v' = v ∨ (v.toNumber = nan ∧ v' = .num (fin 0))) :
    numberOrZero v' = numberOrZero v := by
  rcases h with h | ⟨hn, h⟩
  · rw [h]
  · rw [h]
    simp [numberOrZero, hn, JSNum.orElse, JSNum.truthy]

theorem recommendBox_numeric_no_nan (w h d wt : ℚ) (f : Fragility)
    (packagingType category : String) :
    (recommendBox (numericProduct w h d wt f) packagingType category).utilization ≠ nan ∧
      (recommendBox (numericProduct w h d wt f) packagingType category).voidPercent ≠ nan ∧
      (recommendBox (numericProduct w h d wt f) packagingType category).voidSpace ≠ nan := by
  have hbox := recommendBox_box_numeric w h d wt f packagingType category
  generalize hbw : roundTenth (Max.max (roundTenth (3 + w + 24 / 100 * wt + 4 * f.ordinal))
          (w + clearanceFor category)) = bw at hbox
  generalize hbh : roundTenth (Max.max (roundTenth (3 + h + 24 / 100 * wt + 4 * f.ordinal))
          (h + clearanceFor category)) = bh at hbox
  generalize hbd : roundTenth (Max.max (roundTenth (3 + d + 24 / 100 * wt + 4 * f.ordinal))
          (d + clearanceFor category)) = bd at hbox
  have hu : (recommendBox (numericProduct w h d wt f) packagingType category).utilization =
      if 0 < w * h * d then round1 (fin (w * h * d) / fin (bw * bh * bd) * fin 100)
      else fin 0 := by
    have : (recommendBox (numericProduct w h d wt f) packagingType category).utilization =
      if JSNum.gt (fin (w * h * d)) (fin 0) then
        round1 (fin (w * h * d) /
          ((recommendBox (numericProduct w h d wt f) packagingType category).box.width *
           (recommendBox (numericProduct w h d wt f) packagingType category).box.height *
           (recommendBox (numericProduct w h d wt f) packagingType category).box.depth)
          * fin 100)
      else fin 0 := by
      simp [recommendBox, safeProduct_numeric]
    rw [this, hbox]
    simp
  have hvp : (recommendBox (numericProduct w h d wt f) packagingType category).voidPercent =
      round1 (fin 100 -
        (recommendBox (numericProduct w h d wt f) packagingType category).utilization) := rfl
  have hvs : (recommendBox (numericProduct w h d wt f) packagingType category).voidSpace =
      round1 ((recommendBox (numericProduct w h d wt f) packagingType category).box.width *
           (recommendBox (numericProduct w h d wt f) packagingType category).box.height *
           (recommendBox (numericProduct w h d wt f) packagingType category).box.depth
           - fin (w * h * d)) := by
    simp [recommendBox, safeProduct_numeric]
  rw [hvp, hvs, hu, hbox]
  by_cases hpos : 0 < w * h * d
  · by_cases hb : bw * bh * bd = 0
    · have hne : w * h * d ≠ 0 := ne_of_gt hpos
      have hdiv : fin (w * h * d) / fin (bw * bh * bd) = posInf := by
        show JSNum.div _ _ = _
        simp [JSNum.div, hb, hne, hpos]
      simp only [hpos, if_true, hdiv]
      refine ⟨by decide, by decide, by simp⟩
    · simp [hpos, fin_div_fin _ _ hb]
  · simp [hpos]

theorem safeProduct_is_numeric (p : Product) (f : Fragility) (hf : p.fragility = some f.key)
    (hw : (numberOrZero p.width).isFinite = true) (hh : (numberOrZero p.height).isFinite = true)
    (hd : (numberOrZero p.depth).isFinite = true)
    (hwt : (numberOrZero p.weight).isFinite = true) :
    ∃ w h d wt : ℚ, safeProduct p = numericProduct w h d wt f := by
  obtain ⟨w, hw⟩ := numberOrZero_of_isFinite _ hw
  obtain ⟨h, hh⟩ := numberOrZero_of_isFinite _ hh
  obtain ⟨d, hd⟩ := numberOrZero_of_isFinite _ hd
  obtain ⟨wt, hwt⟩ := numberOrZero_of_isFinite _ hwt
  exact ⟨w, h, d, wt, by simp [safeProduct, numericProduct, hw, hh, hd, hwt, hf]⟩

/-- C6 fails as stated: `predictPackaging` does not coerce.  With the width missing
(height 5, depth 3, weight 0.5, fragility LOW) it returns the width `NaN` and a `NaN`
utilization, while with width 0 it returns the width 3.1. -/
theorem predictPackaging_does_not_coerce :
    (predictPackaging ⟨.undefined, .num (fin 5), .num (fin 3), .num (fin (1 / 2)),
        some "LOW"⟩).dimensions.width = nan ∧
      (predictPackaging ⟨.undefined, .num (fin 5), .num (fin 3), .num (fin (1 / 2)),
        some "LOW"⟩).utilization = nan ∧
      (predictPackaging ⟨.num (fin 0), .num (fin 5), .num (fin 3), .num (fin (1 / 2)),
        some "LOW"⟩).dimensions.width = fin (31 / 10) ∧
      predictPackaging ⟨.undefined, .num (fin 5), .num (fin 3), .num (fin (1 / 2)), some "LOW"⟩
        ≠ predictPackaging ⟨.num (fin 0), .num (fin 5), .num (fin 3), .num (fin (1 / 2)),
          some "LOW"⟩ := by
  decide!

theorem isFinite_of_withinMillion (x : JSNum) (h : withinMillion x = true) :
    x.isFinite = true := by
  cases x <;> simp_all [withinMillion, JSNum.isFinite]

theorem recommendBox_of_safeProduct_double (p q : Product) (packagingType category : String)
    (h : safeProduct p = safeProduct q) :
    F64.recommendBox p packagingType category = F64.recommendBox q packagingType category := by
  simp only [F64.recommendBox, h]

/-- C6 (amended): the coercion to 0 is done by `recommendBox`, before it calls
`predictPackaging`.  Let `p` be a product with one of the four fragility keys whose
width, height, depth and weight are each missing, not a number, or a finite number of
magnitude at most 1,000,000, and let `q` be `p` with any of its missing or non-numeric
fields set to 0.  Then `recommendBox` returns for `p` exactly what it returns for `q`
(in the exact reading and in binary64), and no number in the result is `NaN`: the box
dimensions are finite, a thickness entry is present, and utilization, voidPercent and
voidSpace are not `NaN`. -/
theorem recommendBox_coerces_bounded (p q : Product) (f : Fragility)
    (packagingType category : String)
    (hf : p.fragility = some f.key) (hq : q.fragility = p.fragility)
    (hw : withinMillion (numberOrZero p.width) = true)
    (hh : withinMillion (numberOrZero p.height) = true)
    (hd : withinMillion (numberOrZero p.depth) = true)
    (hwt : withinMillion (numberOrZero p.weight) = true)
    (qw : q.width = p.width ∨ (p.width.toNumber = nan ∧ q.width = .num (fin 0)))
    (qh : q.height = p.height ∨ (p.height.toNumber = nan ∧ q.height = .num (fin 0)))
    (qd : q.depth = p.depth ∨ (p.depth.toNumber = nan ∧ q.depth = .num (fin 0)))
    (qwt : q.weight = p.weight ∨ (p.weight.toNumber = nan ∧ q.weight = .num (fin 0))) :
    recommendBox p packagingType category = recommendBox q packagingType category ∧
      F64.recommendBox p packagingType category = F64.recommendBox q packagingType category ∧
      (∃ bw bh bd : ℚ, (recommendBox p packagingType category).box = ⟨fin bw, fin bh, fin bd⟩) ∧
      (recommendBox p packagingType category).thickness ≠ none ∧
      (recommendBox p packagingType category).utilization ≠ nan ∧
      (recommendBox p packagingType category).voidPercent ≠ nan ∧
      (recommendBox p packagingType category).voidSpace ≠ nan := by
  have hs : safeProduct p = safeProduct q := by
    simp [safeProduct, numberOrZero_replaced _ _ qw, numberOrZero_replaced _ _ qh,
      numberOrZero_replaced _ _ qd, numberOrZero_replaced _ _ qwt, hq]
  obtain ⟨w, h, d, wt, hn⟩ := safeProduct_is_numeric p f hf
    (isFinite_of_withinMillion _ hw) (isFinite_of_withinMillion _ hh)
    (isFinite_of_withinMillion _ hd) (isFinite_of_withinMillion _ hwt)
  have hp : recommendBox p packagingType category =
      recommendBox (numericProduct w h d wt f) packagingType category :=
    recommendBox_of_safeProduct _ _ _ _ (by rw [hn, safeProduct_numeric])
  refine ⟨recommendBox_of_safeProduct _ _ _ _ hs,
    recommendBox_of_safeProduct_double _ _ _ _ hs, ?_, ?_, ?_⟩
  · rw [hp]
    exact ⟨_, _, _, recommendBox_box_numeric w h d wt f packagingType category⟩
  · rw [hp]
    obtain ⟨k, _, _, _, t, _, ht, _⟩ := thickness_numeric w h d wt f
    have : (recommendBox (numericProduct w h d wt f) packagingType category).thickness =
        (predictPackaging (numericProduct w h d wt f)).thickness := by
      simp [recommendBox, safeProduct_numeric]
    rw [this, ht]
    simp
  · rw [hp]
    exact recommendBox_numeric_no_nan w h d wt f packagingType category

/-- Witness of C6 (amended) at a product whose width is missing and whose weight is a
non-numeric value, compared with the same product with both fields set to 0. -/
theorem recommendBox_coerces_bounded_witness :
    recommendBox ⟨.undefined, .num (fin 5), .num (fin 3), .other nan, some "LOW"⟩ "Box" "Glass"
        = recommendBox ⟨.num (fin 0), .num (fin 5), .num (fin 3), .num (fin 0), some "LOW"⟩
            "Box" "Glass" ∧
      F64.recommendBox ⟨.undefined, .num (fin 5), .num (fin 3), .other nan, some "LOW"⟩
          "Box" "Glass"
        = F64.recommendBox ⟨.num (fin 0), .num (fin 5), .num (fin 3), .num (fin 0), some "LOW"⟩
            "Box" "Glass" ∧
      (∃ bw bh bd : ℚ,
        (recommendBox ⟨.undefined, .num (fin 5), .num (fin 3), .other nan, some "LOW"⟩
          "Box" "Glass").box = ⟨fin bw, fin bh, fin bd⟩) ∧
      (recommendBox ⟨.undefined, .num (fin 5), .num (fin 3), .other nan, some "LOW"⟩
        "Box" "Glass").thickness ≠ none ∧
      (recommendBox ⟨.undefined, .num (fin 5), .num (fin 3), .other nan, some "LOW"⟩
        "Box" "Glass").utilization ≠ nan ∧
      (recommendBox ⟨.undefined, .num (fin 5), .num (fin 3), .other nan, some "LOW"⟩
        "Box" "Glass").voidPercent ≠ nan ∧
      (recommendBox ⟨.undefined, .num (fin 5), .num (fin 3), .other nan, some "LOW"⟩
        "Box" "Glass").voidSpace ≠ nan :=
  recommendBox_coerces_bounded
    ⟨.undefined, .num (fin 5), .num (fin 3), .other nan, some "LOW"⟩
    ⟨.num (fin 0), .num (fin 5), .num (fin 3), .num (fin 0), some "LOW"⟩
    .LOW "Box" "Glass" rfl rfl (by decide!) (by decide!) (by decide!) (by decide!)
    (Or.inr ⟨rfl, rfl⟩) (Or.inl rfl) (Or.inl rfl) (Or.inr ⟨rfl, rfl⟩)

/-! ## The documented scenario -/

/-- C7: for the product of width 10, height 5, depth 3, weight 0.5 and fragility "LOW",
`predictPackaging` returns the dimensions (13.1, 8.1, 6.1) and the thickness entry of
level 1, "Single Wall - E Flute", and `recommendBox` with packaging type "Box" returns
the box (13.1, 8.1, 6.1) unchanged, for every category (so for every non-Paper one). -/
theorem scenario_low_fragility :
    (predictPackaging ⟨.num (fin 10), .num (fin 5), .num (fin 3), .num (fin (5 / 10)),
        some "LOW"⟩).dimensions = ⟨fin (131 / 10), fin (81 / 10), fin (61 / 10)⟩ ∧
      (predictPackaging ⟨.num (fin 10), .num (fin 5), .num (fin 3), .num (fin (5 / 10)),
        some "LOW"⟩).thickness = some ⟨1, "Single Wall - E Flute"⟩ ∧
      ∀ category : String,
        (recommendBox ⟨.num (fin 10), .num (fin 5), .num (fin 3), .num (fin (5 / 10)),
          some "LOW"⟩ "Box" category).box = ⟨fin (131 / 10), fin (81 / 10), fin (61 / 10)⟩ := by
  refine ⟨by decide!, by decide!, ?_⟩
  intro category
  have hp : (⟨.num (fin 10), .num (fin 5), .num (fin 3), .num (fin (5 / 10)), some "LOW"⟩ :
      Product) = numericProduct 10 5 3 (5 / 10) .LOW := rfl
  have hc := clearanceFor_le category
  have h0 : (0 : ℚ) ≤ 5 / 10 := by norm_num
  rw [hp, recommendBox_box_numeric,
    (floor_holds 10 (5 / 10) Fragility.LOW.ordinal _ h0 (ordinal_nonneg _) hc).1,
    (floor_holds 5 (5 / 10) Fragility.LOW.ordinal _ h0 (ordinal_nonneg _) hc).1,
    (floor_holds 3 (5 / 10) Fragility.LOW.ordinal _ h0 (ordinal_nonneg _) hc).1]
  norm_num [roundTenth, Fragility.ordinal]

/-! ## Safety rating and fill -/

theorem safeProduct_fragility (p : Product) : (safeProduct p).fragility = p.fragility := rfl

theorem recommendBox_carries (p : Product) (packagingType category : String) :
    (recommendBox p packagingType category).safetyRating
        = (predictPackaging (safeProduct p)).safetyRating ∧
      (recommendBox p packagingType category).recommendedFill
        = (predictPackaging (safeProduct p)).recommendedFill ∧
      (recommendBox p packagingType category).thickness
        = (predictPackaging (safeProduct p)).thickness :=
  ⟨rfl, rfl, rfl⟩

theorem rating_and_fill (w h d wt : JSVal) (f : Fragility) :
    (predictPackaging ⟨w, h, d, wt, some f.key⟩).safetyRating =
        (match f with
          | .EXTREME => "Maximum"
          | .HIGH => "Enhanced"
          | _ => "Standard") ∧
      (predictPackaging ⟨w, h, d, wt, some f.key⟩).recommendedFill =
        (match f with
          | .EXTREME => "Bio-foam inserts"
          | .HIGH => "Bio-foam inserts"
          | .MEDIUM => "Corrugated wraps"
          | .LOW => "No fill needed") := by
  cases f <;>
    simp [predictPackaging, fValue, fragilityOf, Fragility.key, FRAGILITY_MAP, JSVal.coalesce,
      JSVal.toNumber] <;> norm_num

/-- C8: whatever the width, height, depth and weight fields hold, and whatever the
packaging type and category, the safetyRating and recommendedFill returned by
`predictPackaging`, and the ones `recommendBox` returns, are fixed by the fragility:
EXTREME gives ("Maximum", "Bio-foam inserts"), HIGH gives ("Enhanced", "Bio-foam
inserts"), MEDIUM gives ("Standard", "Corrugated wraps"), LOW gives ("Standard",
"No fill needed"); `recommendBox` returns the values of the prediction unchanged. -/
theorem rating_and_fill_by_fragility (w h d wt : JSVal) (packagingType category : String) :
    ((predictPackaging ⟨w, h, d, wt, some "EXTREME"⟩).safetyRating = "Maximum" ∧
      (predictPackaging ⟨w, h, d, wt, some "EXTREME"⟩).recommendedFill = "Bio-foam inserts" ∧
      (recommendBox ⟨w, h, d, wt, some "EXTREME"⟩ packagingType category).safetyRating
        = "Maximum" ∧
      (recommendBox ⟨w, h, d, wt, some "EXTREME"⟩ packagingType category).recommendedFill
        = "Bio-foam inserts") ∧
    ((predictPackaging ⟨w, h, d, wt, some "HIGH"⟩).safetyRating = "Enhanced" ∧
      (predictPackaging ⟨w, h, d, wt, some "HIGH"⟩).recommendedFill = "Bio-foam inserts" ∧
      (recommendBox ⟨w, h, d, wt, some "HIGH"⟩ packagingType category).safetyRating
        = "Enhanced" ∧
      (recommendBox ⟨w, h, d, wt, some "HIGH"⟩ packagingType category).recommendedFill
        = "Bio-foam inserts") ∧
    ((predictPackaging ⟨w, h, d, wt, some "MEDIUM"⟩).safetyRating = "Standard" ∧
      (predictPackaging ⟨w, h, d, wt, some "MEDIUM"⟩).recommendedFill = "Corrugated wraps" ∧
      (recommendBox ⟨w, h, d, wt, some "MEDIUM"⟩ packagingType category).safetyRating
        = "Standard" ∧
      (recommendBox ⟨w, h, d, wt, some "MEDIUM"⟩ packagingType category).recommendedFill
        = "Corrugated wraps") ∧
    ((predictPackaging ⟨w, h, d, wt, some "LOW"⟩).safetyRating = "Standard" ∧
      (predictPackaging ⟨w, h, d, wt, some "LOW"⟩).recommendedFill = "No fill needed" ∧
      (recommendBox ⟨w, h, d, wt, some "LOW"⟩ packagingType category).safetyRating
        = "Standard" ∧
      (recommendBox ⟨w, h, d, wt, some "LOW"⟩ packagingType category).recommendedFill
        = "No fill needed") ∧
    ∀ p : Product,
      (recommendBox p packagingType category).safetyRating
          = (predictPackaging (safeProduct p)).safetyRating ∧
        (recommendBox p packagingType category).recommendedFill
          = (predictPackaging (safeProduct p)).recommendedFill := by
  have key : ∀ (f : Fragility) (a b c e : JSVal),
      (recommendBox ⟨a, b, c, e, some f.key⟩ packagingType category).safetyRating =
          (predictPackaging ⟨a, b, c, e, some f.key⟩).safetyRating ∧
        (recommendBox ⟨a, b, c, e, some f.key⟩ packagingType category).recommendedFill =
          (predictPackaging ⟨a, b, c, e, some f.key⟩).recommendedFill := by
    intro f a b c e
    have h1 := rating_and_fill a b c e f
    have h2 := rating_and_fill (.num (numberOrZero a)) (.num (numberOrZero b))
      (.num (numberOrZero c)) (.num (numberOrZero e)) f
    have h3 := recommendBox_carries ⟨a, b, c, e, some f.key⟩ packagingType category
    exact ⟨by rw [h3.1, h1.1]; exact h2.1, by rw [h3.2.1, h1.2]; exact h2.2⟩
  have e := rating_and_fill w h d wt .EXTREME
  have hi := rating_and_fill w h d wt .HIGH
  have m := rating_and_fill w h d wt .MEDIUM
  have l := rating_and_fill w h d wt .LOW
  have ke := key .EXTREME w h d wt
  have khi := key .HIGH w h d wt
  have km := key .MEDIUM w h d wt
  have kl := key .LOW w h d wt
  refine ⟨⟨e.1, e.2, ke.1.trans e.1, ke.2.trans e.2⟩, ⟨hi.1, hi.2, khi.1.trans hi.1, khi.2.trans hi.2⟩,
    ⟨m.1, m.2, km.1.trans m.1, km.2.trans m.2⟩, ⟨l.1, l.2, kl.1.trans l.1, kl.2.trans l.2⟩, ?_⟩
  intro p
  exact ⟨rfl, rfl⟩

/-! ## Default fragility -/

theorem fValue_default (w h d wt : JSVal) (s : String) (h1 : s ≠ "LOW") (h2 : s ≠ "MEDIUM")
    (h3 : s ≠ "HIGH") (h4 : s ≠ "EXTREME") (h5 : s ∉ objectPrototypeKeys) :
    fValue ⟨w, h, d, wt, some s⟩ = .num (fin 0) := by
  simp [fValue, fragilityOf, FRAGILITY_MAP, JSVal.coalesce, h1, h2, h3, h4, h5]

/-- When the fragility is absent, or is a string that is neither one of the four keys
nor a name inherited from `Object.prototype`, `predictPackaging` returns what it returns
for "LOW". -/
theorem predictPackaging_default_fragility (w h d wt : JSVal) (s : String) (h1 : s ≠ "LOW")
    (h2 : s ≠ "MEDIUM") (h3 : s ≠ "HIGH") (h4 : s ≠ "EXTREME")
    (h5 : s ∉ objectPrototypeKeys) :
    predictPackaging ⟨w, h, d, wt, none⟩ = predictPackaging ⟨w, h, d, wt, some "LOW"⟩ ∧
      predictPackaging ⟨w, h, d, wt, some s⟩ = predictPackaging ⟨w, h, d, wt, some "LOW"⟩ := by
  refine ⟨rfl, ?_⟩
  have hf := fValue_default w h d wt s h1 h2 h3 h4 h5
  have hl : fValue ⟨w, h, d, wt, some "LOW"⟩ = .num (fin 0) := fValue_key w h d wt .LOW
  have hi : modelInput ⟨w, h, d, wt, some s⟩ = modelInput ⟨w, h, d, wt, some "LOW"⟩ := by
    simp only [modelInput, hf, hl]
  simp only [predictPackaging, predictedDimensions, thickLevel, predictions, hi, hf, hl,
    fragilityOf, Option.getD, h4, h3]
  simp

/-- C9 fails on the code: with the fragility "constructor", a string other than the four
keys, `FRAGILITY_MAP[fragility]` finds the inherited property, `?? 0` does not replace
it, and `predictPackaging` returns `NaN` dimensions, no thickness entry and a `NaN`
utilization, which is not the prediction it returns for "LOW". -/
theorem predictPackaging_inherited_key :
    (predictPackaging ⟨.num (fin 10), .num (fin 5), .num (fin 3), .num (fin (5 / 10)),
        some "constructor"⟩).dimensions = ⟨nan, nan, nan⟩ ∧
      (predictPackaging ⟨.num (fin 10), .num (fin 5), .num (fin 3), .num (fin (5 / 10)),
        some "constructor"⟩).thickness = none ∧
      (predictPackaging ⟨.num (fin 10), .num (fin 5), .num (fin 3), .num (fin (5 / 10)),
        some "constructor"⟩).utilization = nan ∧
      (predictPackaging ⟨.num (fin 10), .num (fin 5), .num (fin 3), .num (fin (5 / 10)),
        some "LOW"⟩).dimensions = ⟨fin (131 / 10), fin (81 / 10), fin (61 / 10)⟩ ∧
      predictPackaging ⟨.num (fin 10), .num (fin 5), .num (fin 3), .num (fin (5 / 10)),
          some "constructor"⟩ ≠
        predictPackaging ⟨.num (fin 10), .num (fin 5), .num (fin 3), .num (fin (5 / 10)),
          some "LOW"⟩ := by
  decide!

/-! ## Cost estimate -/

@[simp] theorem fin_div_two (a : ℚ) : fin a / fin 2 = fin (a / 2) :=
  fin_div_fin a 2 (by norm_num)

@[simp] theorem fin_div_tenthousand (a : ℚ) : fin a / fin 10000 = fin (a / 10000) :=
  fin_div_fin a 10000 (by norm_num)

theorem profileOf_corrugatedThin : profileOf .corrugatedThin = ⟨fin (35 / 2), fin 150⟩ := by
  simp [profileOf, averageRange, MATERIAL_RATES, MATERIAL_GSM]
  norm_num [roundTenth]

theorem profileOf_duplexStandard : profileOf .duplexStandard = ⟨fin 45, fin 265⟩ := by
  simp [profileOf, averageRange, MATERIAL_RATES, MATERIAL_GSM]
  norm_num [roundTenth]

theorem profileOf_duplexThick : profileOf .duplexThick = ⟨fin 65, fin 425⟩ := by
  simp [profileOf, averageRange, MATERIAL_RATES, MATERIAL_GSM]
  norm_num [roundTenth]

theorem profileOf_kraftCorrugated : profileOf .kraftCorrugated = ⟨fin (55 / 2), fin 150⟩ := by
  simp [profileOf, averageRange, MATERIAL_RATES, MATERIAL_GSM]
  norm_num [roundTenth]

theorem profileOf_finite (m : Material) :
    ∃ r g : ℚ, 0 ≤ r ∧ 0 ≤ g ∧ profileOf m = ⟨fin r, fin g⟩ := by
  cases m
  · exact ⟨_, _, by norm_num, by norm_num, profileOf_corrugatedThin⟩
  · exact ⟨_, _, by norm_num, by norm_num, profileOf_duplexStandard⟩
  · exact ⟨_, _, by norm_num, by norm_num, profileOf_duplexThick⟩
  · exact ⟨_, _, by norm_num, by norm_num, profileOf_kraftCorrugated⟩

theorem getMaterialProfile_band (packagingType : String) (thicknessLevel : Option JSNum) :
    ∃ m : Material, getMaterialProfile packagingType thicknessLevel = profileOf m := by
  unfold getMaterialProfile
  simp only []
  split_ifs
  · exact ⟨_, rfl⟩
  · exact ⟨_, rfl⟩
  · exact ⟨_, rfl⟩
  · exact ⟨_, rfl⟩
  · exact ⟨_, rfl⟩
  · exact ⟨_, rfl⟩

theorem estimateCost_finite (w h d v r g : ℚ) (packagingType : String)
    (thicknessLevel : Option JSNum)
    (hp : getMaterialProfile packagingType (some (thicknessLevel.getD (fin 1))) = ⟨fin r, fin g⟩) :
    estimateCost ⟨fin w, fin h, fin d⟩ packagingType thicknessLevel (some (fin v)) =
      { materialCost := fin (roundTenth (roundTenth
            (2 * (w * h + w * d + h * d) / 10000 * g * (108 / 100)) / 1000 * r))
        fillerCost := fin (roundTenth (roundTenth (Max.max 0 v * (2 / 1000)) / 1000 * 80))
        total := fin (roundTenth (roundTenth (roundTenth
            (2 * (w * h + w * d + h * d) / 10000 * g * (108 / 100)) / 1000 * r) +
          roundTenth (roundTenth (Max.max 0 v * (2 / 1000)) / 1000 * 80)))
        boardWeightG := fin (roundTenth (2 * (w * h + w * d + h * d) / 10000 * g * (108 / 100)))
        fillerWeightG := fin (roundTenth (Max.max 0 v * (2 / 1000))) } := by
  simp [estimateCost, hp, computeBoardWeightG]

/-- C10: for a fixed packaging type and thickness level and any two finite box and void
inputs, if the first result has boardWeightG and fillerWeightG no larger than the second
(in the sense of `<=`), then its total is no larger either. -/
theorem estimateCost_total_monotone (packagingType : String) (thicknessLevel : Option JSNum)
    (w1 h1 d1 v1 w2 h2 d2 v2 : ℚ)
    (hb : JSNum.le
      (estimateCost ⟨fin w1, fin h1, fin d1⟩ packagingType thicknessLevel
        (some (fin v1))).boardWeightG
      (estimateCost ⟨fin w2, fin h2, fin d2⟩ packagingType thicknessLevel
        (some (fin v2))).boardWeightG = true)
    (hf : JSNum.le
      (estimateCost ⟨fin w1, fin h1, fin d1⟩ packagingType thicknessLevel
        (some (fin v1))).fillerWeightG
      (estimateCost ⟨fin w2, fin h2, fin d2⟩ packagingType thicknessLevel
        (some (fin v2))).fillerWeightG = true) :
    JSNum.le
      (estimateCost ⟨fin w1, fin h1, fin d1⟩ packagingType thicknessLevel (some (fin v1))).total
      (estimateCost ⟨fin w2, fin h2, fin d2⟩ packagingType thicknessLevel (some (fin v2))).total
        = true := by
  obtain ⟨m, hm⟩ := getMaterialProfile_band packagingType (some (thicknessLevel.getD (fin 1)))
  obtain ⟨r, g, hr, _, hrg⟩ := profileOf_finite m
  have hp := hm.trans hrg
  rw [estimateCost_finite w1 h1 d1 v1 r g packagingType thicknessLevel hp,
    estimateCost_finite w2 h2 d2 v2 r g packagingType thicknessLevel hp] at hb hf ⊢
  simp only [le_fin_fin, decide_eq_true_eq] at hb hf ⊢
  apply roundTenth_mono
  apply add_le_add
  · apply roundTenth_mono
    exact mul_le_mul_of_nonneg_right (div_le_div_of_nonneg_right hb (by norm_num)) hr
  · apply roundTenth_mono
    exact mul_le_mul_of_nonneg_right (div_le_div_of_nonneg_right hf (by norm_num))
      (by norm_num)

/-- Witness of C10: the box 10 x 5 x 3 with void 20 against the box 13.1 x 8.1 x 6.1 with
void 500, packaging type "Box", thickness level 1. -/
theorem estimateCost_total_monotone_witness :
    JSNum.le
      (estimateCost ⟨fin 10, fin 5, fin 3⟩ "Box" (some (fin 1)) (some (fin 20))).total
      (estimateCost ⟨fin (131 / 10), fin (81 / 10), fin (61 / 10)⟩ "Box" (some (fin 1))
        (some (fin 500))).total = true :=
  estimateCost_total_monotone "Box" (some (fin 1)) 10 5 3 20 (131 / 10) (81 / 10) (61 / 10) 500
    (by decide!) (by decide!)

/-! ## Baseline comparison -/

theorem roundTenth_nonneg {q : ℚ} (h : 0 ≤ q) : 0 ≤ roundTenth q := by
  unfold roundTenth
  apply div_nonneg _ (by norm_num)
  have h1 : (0 : ℤ) ≤ Int.floor (q * 10 + 1 / 2) := Int.floor_nonneg.mpr (by linarith)
  exact_mod_cast h1

theorem roundTenth_zero : roundTenth 0 = 0 := by
  norm_num [roundTenth]

theorem estimateCost_total_finite (w h d v : ℚ) (packagingType : String)
    (thicknessLevel : Option JSNum) :
    ∃ T : ℚ, (estimateCost ⟨fin w, fin h, fin d⟩ packagingType thicknessLevel
      (some (fin v))).total = fin T := by
  obtain ⟨m, hm⟩ := getMaterialProfile_band packagingType (some (thicknessLevel.getD (fin 1)))
  obtain ⟨r, g, _, _, hrg⟩ := profileOf_finite m
  exact ⟨_, by rw [estimateCost_finite w h d v r g packagingType thicknessLevel (hm.trans hrg)]⟩

theorem recommendBox_voidSpace_numeric (w h d wt : ℚ) (f : Fragility)
    (packagingType category : String) :
    ∃ bw bh bd vs : ℚ,
      (recommendBox (numericProduct w h d wt f) packagingType category).box
          = ⟨fin bw, fin bh, fin bd⟩ ∧
        (recommendBox (numericProduct w h d wt f) packagingType category).voidSpace = fin vs := by
  have hbox := recommendBox_box_numeric w h d wt f packagingType category
  have hvs : (recommendBox (numericProduct w h d wt f) packagingType category).voidSpace =
      round1 ((recommendBox (numericProduct w h d wt f) packagingType category).box.width *
           (recommendBox (numericProduct w h d wt f) packagingType category).box.height *
           (recommendBox (numericProduct w h d wt f) packagingType category).box.depth
           - fin (w * h * d)) := by
    simp [recommendBox, safeProduct_numeric]
  rw [hbox] at hvs
  simp only [fin_mul_fin, fin_sub_fin, round1_fin] at hvs
  exact ⟨_, _, _, _, hbox, hvs⟩

theorem costInfo_of_thickness (p : Product) (packagingType category : String)
    (t : ThicknessSpec) (ht : (recommendBox p packagingType category).thickness = some t) :
    ∃ ci : CostInfo, costInfo p packagingType category = some ci ∧
      ci.aiCost = (estimateCost (recommendBox p packagingType category).box packagingType
        (some (fin (t.level : ℚ)))
        (some (recommendBox p packagingType category).voidSpace)).total ∧
      ci.baselineCost = (estimateCost
        ⟨numberOrZero p.width * fin (12 / 10), numberOrZero p.height * fin (12 / 10),
          numberOrZero p.depth * fin (12 / 10)⟩ packagingType
        (some (JSNum.min (fin 7) ((fin (t.level : ℚ)).orElse (fin 1) + fin 1)))
        (some (numberOrZero p.width * fin (12 / 10) * (numberOrZero p.height * fin (12 / 10)) *
            (numberOrZero p.depth * fin (12 / 10)) -
          numberOrZero p.width * numberOrZero p.height * numberOrZero p.depth))).total ∧
      ci.savings = round1 (JSNum.max (fin 0) (ci.baselineCost - ci.aiCost)) := by
  unfold costInfo
  generalize recommendBox p packagingType category = R at ht
  simp only [ht]
  exact ⟨_, rfl, rfl, rfl, rfl⟩

theorem savings_value (a b : ℚ) :
    round1 (JSNum.max (fin 0) (fin b - fin a)) = fin (roundTenth (Max.max 0 (b - a))) ∧
      0 ≤ roundTenth (Max.max 0 (b - a)) ∧
      (if b ≤ a then roundTenth (Max.max 0 (b - a)) = 0
        else roundTenth (Max.max 0 (b - a)) = roundTenth (b - a)) := by
  refine ⟨by simp, roundTenth_nonneg (le_max_left _ _), ?_⟩
  split
  · rename_i hle
    rw [max_eq_left (by linarith), roundTenth_zero]
  · rename_i hlt
    rw [max_eq_right (by linarith)]

/-- C11: for every product with finite numeric fields and every fragility, packaging type
and category, the baseline comparison produces a cost record whose `aiCost` and
`baselineCost` are finite numbers `a` and `b` and whose `savings`, computed as
`round1(max(0, baselineCost - aiCost))`, is a finite number `s` that is never negative,
is 0 whenever `b <= a`, and is `round1(b - a)` otherwise. -/
theorem savings_never_negative (w h d wt : ℚ) (f : Fragility)
    (packagingType category : String) :
    ∃ (ci : CostInfo) (a b s : ℚ),
      costInfo (numericProduct w h d wt f) packagingType category = some ci ∧
        ci.aiCost = fin a ∧ ci.baselineCost = fin b ∧ ci.savings = fin s ∧
        ci.savings = round1 (JSNum.max (fin 0) (ci.baselineCost - ci.aiCost)) ∧
        0 ≤ s ∧ (if b ≤ a then s = 0 else s = roundTenth (b - a)) := by
  obtain ⟨k, _, _, _, t, _, ht, _⟩ := thickness_numeric w h d wt f
  have hthick : (recommendBox (numericProduct w h d wt f) packagingType category).thickness
      = some t := by
    rw [(recommendBox_carries _ packagingType category).2.2, safeProduct_numeric, ht]
  obtain ⟨ci, hci, hai, hbase, hsav⟩ :=
    costInfo_of_thickness (numericProduct w h d wt f) packagingType category t hthick
  obtain ⟨bw, bh, bd, vs, hbox, hvs⟩ := recommendBox_voidSpace_numeric w h d wt f
    packagingType category
  rw [hbox, hvs] at hai
  obtain ⟨a, ha⟩ := estimateCost_total_finite bw bh bd vs packagingType
    (some (fin (t.level : ℚ)))
  simp only [numericProduct_width, numericProduct_height, numericProduct_depth,
    numberOrZero_fin, fin_mul_fin, fin_sub_fin] at hbase
  obtain ⟨b, hb⟩ := estimateCost_total_finite (w * (12 / 10)) (h * (12 / 10)) (d * (12 / 10))
    (w * (12 / 10) * (h * (12 / 10)) * (d * (12 / 10)) - w * h * d) packagingType
    (some (JSNum.min (fin 7) ((fin (t.level : ℚ)).orElse (fin 1) + fin 1)))
  have hA : ci.aiCost = fin a := hai.trans ha
  have hB : ci.baselineCost = fin b := hbase.trans hb
  obtain ⟨h1, h2, h3⟩ := savings_value a b
  refine ⟨ci, a, b, _, hci, hA, hB, ?_, hsav, h2, h3⟩
  rw [hsav, hA, hB, h1]

/-- Both cases of the savings formula occur: for the product 10 x 5 x 3 the baseline costs
0.1 against 0.2 and the savings are 0; for 100 x 50 x 30 the savings are 14.3. -/
theorem savings_examples :
    (costInfo (numericProduct 10 5 3 (1 / 2) .LOW) "Box" "Glass").map CostInfo.aiCost
        = some (fin (2 / 10)) ∧
      (costInfo (numericProduct 10 5 3 (1 / 2) .LOW) "Box" "Glass").map CostInfo.baselineCost
        = some (fin (1 / 10)) ∧
      (costInfo (numericProduct 10 5 3 (1 / 2) .LOW) "Box" "Glass").map CostInfo.savings
        = some (fin 0) ∧
      (costInfo (numericProduct 100 50 30 (1 / 2) .LOW) "Box" "Glass").map CostInfo.savings
        = some (fin (143 / 10)) := by
  decide!

/-! ## Material profile and cost formulas -/

theorem level_of_nat (k : ℕ) :
    (fin (k : ℚ)).orElse (fin 1) = fin (if k = 0 then 1 else (k : ℚ)) := by
  by_cases hk : k = 0 <;> simp [JSNum.orElse, JSNum.truthy, hk]

/-- C12: for every packaging type and every natural thickness level `k` (in particular
1 to 7), `getMaterialProfile` returns the midpoint of the selected band: for "Mailer" or
"Envelope", thick duplex (65, 425) when `k >= 5` and standard duplex (45, 265) below; for
every other packaging type, thin corrugated (17.5, 150) when `k <= 2`, kraft corrugated
(27.5, 150) for 3 and 4, standard duplex (45, 265) for 5 and thick duplex (65, 425) from
6 on; each pair is the midpoint `(min + max) / 2` of its band in `MATERIAL_RATES` and
`MATERIAL_GSM`. -/
theorem getMaterialProfile_midpoints (packagingType : String) (k : ℕ) :
    getMaterialProfile packagingType (some (fin (k : ℚ))) =
        (if packagingType = "Mailer" ∨ packagingType = "Envelope" then
          (if 5 ≤ k then ⟨fin 65, fin 425⟩ else ⟨fin 45, fin 265⟩)
        else if k ≤ 2 then ⟨fin (175 / 10), fin 150⟩
        else if k ≤ 4 then ⟨fin (275 / 10), fin 150⟩
        else if k = 5 then ⟨fin 45, fin 265⟩
        else ⟨fin 65, fin 425⟩) ∧
      (MATERIAL_RATES .duplexThick = ⟨fin 50, fin 80⟩ ∧ (50 + 80 : ℚ) / 2 = 65 ∧
        MATERIAL_GSM .duplexThick = ⟨fin 400, fin 450⟩ ∧ (400 + 450 : ℚ) / 2 = 425) ∧
      (MATERIAL_RATES .duplexStandard = ⟨fin 40, fin 50⟩ ∧ (40 + 50 : ℚ) / 2 = 45 ∧
        MATERIAL_GSM .duplexStandard = ⟨fin 200, fin 330⟩ ∧ (200 + 330 : ℚ) / 2 = 265) ∧
      (MATERIAL_RATES .corrugatedThin = ⟨fin 15, fin 20⟩ ∧ (15 + 20 : ℚ) / 2 = 175 / 10 ∧
        MATERIAL_GSM .corrugatedThin = ⟨fin 150, fin 150⟩ ∧ (150 + 150 : ℚ) / 2 = 150) ∧
      (MATERIAL_RATES .kraftCorrugated = ⟨fin 20, fin 35⟩ ∧ (20 + 35 : ℚ) / 2 = 275 / 10 ∧
        MATERIAL_GSM .kraftCorrugated = ⟨fin 100, fin 200⟩ ∧ (100 + 200 : ℚ) / 2 = 150) := by
  refine ⟨?_, ⟨rfl, by norm_num, rfl, by norm_num⟩, ⟨rfl, by norm_num, rfl, by norm_num⟩,
    ⟨rfl, by norm_num, rfl, by norm_num⟩, ⟨rfl, by norm_num, rfl, by norm_num⟩⟩
  have h35 : (35 : ℚ) / 2 = 175 / 10 := by norm_num
  have h55 : (55 : ℚ) / 2 = 275 / 10 := by norm_num
  simp only [getMaterialProfile, Option.getD, level_of_nat, profileOf_corrugatedThin,
    profileOf_duplexStandard, profileOf_duplexThick, profileOf_kraftCorrugated, h35, h55]
  by_cases hk : k = 0
  · subst hk
    by_cases hp : packagingType = "Mailer" ∨ packagingType = "Envelope" <;> simp [hp]
  · have hle : ∀ n : ℕ, ((k : ℚ) ≤ n ↔ k ≤ n) := fun n => Nat.cast_le
    have hge : ∀ n : ℕ, ((n : ℚ) ≤ k ↔ n ≤ k) := fun n => Nat.cast_le
    have h2 := hle 2
    have h4 := hle 4
    have h5 := hge 5
    have e5 : (fin (k : ℚ) = fin 5) ↔ k = 5 := by
      constructor
      · intro h
        injection h with h
        exact_mod_cast h
      · intro h
        rw [h]
        norm_num
    push_cast at h2 h4 h5
    by_cases hp : packagingType = "Mailer" ∨ packagingType = "Envelope" <;>
      simp [hp, hk, h2, h4, h5, e5]

theorem getMaterialProfile_default (packagingType : String) (thicknessLevel : Option JSNum) :
    getMaterialProfile packagingType (some (thicknessLevel.getD (fin 1))) =
      getMaterialProfile packagingType thicknessLevel := by
  cases thicknessLevel <;> rfl

theorem getMaterialProfile_finite (packagingType : String) (thicknessLevel : Option JSNum) :
    ∃ r g : ℚ, 0 ≤ r ∧ 0 ≤ g ∧
      getMaterialProfile packagingType thicknessLevel = ⟨fin r, fin g⟩ := by
  obtain ⟨m, hm⟩ := getMaterialProfile_band packagingType thicknessLevel
  obtain ⟨r, g, hr, hg, hrg⟩ := profileOf_finite m
  exact ⟨r, g, hr, hg, hm.trans hrg⟩

theorem estimateCost_board (w h d r g : ℚ) (packagingType : String)
    (thicknessLevel voidSpace : Option JSNum)
    (hp : getMaterialProfile packagingType thicknessLevel = ⟨fin r, fin g⟩) :
    (estimateCost ⟨fin w, fin h, fin d⟩ packagingType thicknessLevel voidSpace).boardWeightG =
        fin (roundTenth (2 * (w * h + w * d + h * d) / 10000 * g * (108 / 100))) ∧
      (estimateCost ⟨fin w, fin h, fin d⟩ packagingType thicknessLevel voidSpace).materialCost =
        fin (roundTenth (roundTenth (2 * (w * h + w * d + h * d) / 10000 * g * (108 / 100))
          / 1000 * r)) := by
  rw [← getMaterialProfile_default] at hp
  simp [estimateCost, hp, computeBoardWeightG]

theorem profileOf_double (m : Material) : F64.profileOf m = profileOf m := by
  cases m <;> decide!

theorem getMaterialProfile_double (packagingType : String) (thicknessLevel : Option JSNum) :
    F64.getMaterialProfile packagingType thicknessLevel =
      getMaterialProfile packagingType thicknessLevel := by
  simp only [F64.getMaterialProfile, getMaterialProfile, profileOf_double]

theorem getMaterialProfile_double_default (packagingType : String)
    (thicknessLevel : Option JSNum) :
    F64.getMaterialProfile packagingType (some (thicknessLevel.getD (fin 1))) =
      F64.getMaterialProfile packagingType thicknessLevel := by
  cases thicknessLevel <;> rfl

/-- C13 fails as stated: `estimateCost({width: 1, height: 20, depth: 24}, 'Box', 5, 0)`
has board weight 30 and rate 45; the claim's formula gives
`floor(10 * (30 / 1000 * 45) + 1/2) / 10 = 1.4`, as the exact reading does, but in binary64
`(30 / 1000) * 45` is 1.3499999999999999 and the code returns materialCost 1.3. -/
theorem estimateCost_materialCost_double_tie :
    (F64.estimateCost ⟨fin 1, fin 20, fin 24⟩ "Box" (some (fin 5)) (some (fin 0))).boardWeightG
        = fin 30 ∧
      F64.getMaterialProfile "Box" (some (fin 5)) = ⟨fin 45, fin 265⟩ ∧
      F64.mul (F64.div (fin 30) (fin 1000)) (fin 45)
        = fin (6079859496950169 / 4503599627370496) ∧
      (6079859496950169 / 4503599627370496 : ℚ) < 135 / 100 ∧
      (F64.estimateCost ⟨fin 1, fin 20, fin 24⟩ "Box" (some (fin 5)) (some (fin 0))).materialCost
        = F64.lit (13 / 10) ∧
      ((Int.floor (10 * ((30 : ℚ) / 1000 * 45) + 1 / 2) : ℤ) : ℚ) / 10 = 14 / 10 ∧
      (estimateCost ⟨fin 1, fin 20, fin 24⟩ "Box" (some (fin 5)) (some (fin 0))).materialCost
        = fin (14 / 10) ∧
      F64.lit (13 / 10) ≠ F64.lit (14 / 10) ∧ F64.lit (13 / 10) ≠ fin (14 / 10) := by
  decide!

/-- C13 (amended): for every box with finite numeric width `w`, height `h` and depth `d`,
every packaging type, thickness level and void, `estimateCost` returns
`boardWeightG = round1((2 * (w*h + w*d + h*d) / 10000) * gsm * 1.08)` and
`materialCost = round1((boardWeightG / 1000) * rate)` for the profile (rate, gsm) selected
by `getMaterialProfile`, every operation being a binary64 operation, the ones inside
`round1(x) = Math.round(x * 10) / 10` included; the profile is one of the four band
midpoints.  The result is `floor(10 x + 1/2) / 10` of the exact value only where no
rounding of a double moves a product across a tie. -/
theorem estimateCost_board_and_material_double (w h d : ℚ) (packagingType : String)
    (thicknessLevel voidSpace : Option JSNum) :
    (F64.estimateCost ⟨fin w, fin h, fin d⟩ packagingType thicknessLevel voidSpace).boardWeightG
        = F64.boardWeightOf (fin w) (fin h) (fin d)
            (F64.getMaterialProfile packagingType thicknessLevel).gsm ∧
      (F64.estimateCost ⟨fin w, fin h, fin d⟩ packagingType thicknessLevel voidSpace).materialCost
        = F64.materialCostOf
            (F64.estimateCost ⟨fin w, fin h, fin d⟩ packagingType thicknessLevel
              voidSpace).boardWeightG
            (F64.getMaterialProfile packagingType thicknessLevel).rate ∧
      (∃ m : Material, F64.getMaterialProfile packagingType thicknessLevel = profileOf m) ∧
      (∀ x : JSNum, F64.round1 x = F64.div (F64.mul x (fin 10)).round (fin 10)) ∧
      (∀ a b c g : JSNum, F64.boardWeightOf a b c g =
        F64.round1 (F64.mul (F64.mul (F64.div (F64.mul (fin 2)
          (F64.add (F64.add (F64.mul a b) (F64.mul a c)) (F64.mul b c))) (fin 10000)) g)
          (F64.lit (108 / 100)))) ∧
      (∀ bw r : JSNum, F64.materialCostOf bw r =
        F64.round1 (F64.mul (F64.div bw (fin 1000)) r)) := by
  refine ⟨?_, ?_, ?_, fun _ => rfl, fun _ _ _ _ => rfl, fun _ _ => rfl⟩
  · simp only [F64.estimateCost, F64.computeBoardWeightG, numberOrZero_fin,
      getMaterialProfile_double_default]
    rfl
  · simp only [F64.estimateCost, F64.computeBoardWeightG, numberOrZero_fin,
      getMaterialProfile_double_default]
    rfl
  · rw [getMaterialProfile_double]
    exact getMaterialProfile_band packagingType thicknessLevel

theorem roundTenth_add (a b : ℚ) :
    roundTenth (roundTenth a + roundTenth b) = roundTenth a + roundTenth b := by
  have h : roundTenth a + roundTenth b =
      ((Int.floor (a * 10 + 1 / 2) + Int.floor (b * 10 + 1 / 2) : ℤ) : ℚ) / 10 := by
    unfold roundTenth
    push_cast
    ring
  rw [h, roundTenth_tenth]

/-- C14: for every finite box, packaging type, thickness level and finite void `v`: when
`v <= 0`, `estimateCost` returns `fillerWeightG = 0`, `fillerCost = 0` and
`total = materialCost`; when `v > 0` it returns `fillerWeightG = round1(v * 0.002)` and
`fillerCost = round1((fillerWeightG / 1000) * 80)`. -/
theorem estimateCost_filler (w h d v : ℚ) (packagingType : String)
    (thicknessLevel : Option JSNum) :
    ∃ mc : ℚ,
      (estimateCost ⟨fin w, fin h, fin d⟩ packagingType thicknessLevel
        (some (fin v))).materialCost = fin mc ∧
      if v ≤ 0 then
        (estimateCost ⟨fin w, fin h, fin d⟩ packagingType thicknessLevel
            (some (fin v))).fillerWeightG = fin 0 ∧
          (estimateCost ⟨fin w, fin h, fin d⟩ packagingType thicknessLevel
            (some (fin v))).fillerCost = fin 0 ∧
          (estimateCost ⟨fin w, fin h, fin d⟩ packagingType thicknessLevel
            (some (fin v))).total = fin mc
      else
        (estimateCost ⟨fin w, fin h, fin d⟩ packagingType thicknessLevel
            (some (fin v))).fillerWeightG = fin (roundTenth (v * (2 / 1000))) ∧
          (estimateCost ⟨fin w, fin h, fin d⟩ packagingType thicknessLevel
            (some (fin v))).fillerCost
              = fin (roundTenth (roundTenth (v * (2 / 1000)) / 1000 * 80)) := by
  obtain ⟨r, g, _, _, hp⟩ := getMaterialProfile_finite packagingType thicknessLevel
  rw [← getMaterialProfile_default] at hp
  rw [estimateCost_finite w h d v r g packagingType thicknessLevel hp]
  refine ⟨_, rfl, ?_⟩
  split
  · rename_i hv
    simp [max_eq_left hv, roundTenth_zero, roundTenth_idem]
  · rename_i hv
    rw [max_eq_right (le_of_lt (not_le.mp hv))]
    exact ⟨rfl, rfl⟩

/-- C20 fails as stated: for the product 12 x 8 x 4 of weight 1, fragility LOW,
`recommendBox` returns the box 15.2 x 11.2 x 7.2 and the void 841.7, and `estimateCost` of
these with type 'Box' and level 1 returns materialCost 0.2, fillerCost 0.1 and total 0.3,
while `0.2 + 0.1` is 0.30000000000000004 in binary64: the total is not the sum. -/
theorem estimateCost_total_not_sum :
    (F64.recommendBox (F64.product 12 8 4 1 "LOW") "Box" "Glass").box
        = ⟨F64.lit (152 / 10), F64.lit (112 / 10), F64.lit (72 / 10)⟩ ∧
      (F64.recommendBox (F64.product 12 8 4 1 "LOW") "Box" "Glass").voidSpace
        = F64.lit (8417 / 10) ∧
      (F64.estimateCost ⟨F64.lit (152 / 10), F64.lit (112 / 10), F64.lit (72 / 10)⟩ "Box"
        (some (fin 1)) (some (F64.lit (8417 / 10)))).materialCost = F64.lit (2 / 10) ∧
      (F64.estimateCost ⟨F64.lit (152 / 10), F64.lit (112 / 10), F64.lit (72 / 10)⟩ "Box"
        (some (fin 1)) (some (F64.lit (8417 / 10)))).fillerCost = F64.lit (1 / 10) ∧
      (F64.estimateCost ⟨F64.lit (152 / 10), F64.lit (112 / 10), F64.lit (72 / 10)⟩ "Box"
        (some (fin 1)) (some (F64.lit (8417 / 10)))).total = F64.lit (3 / 10) ∧
      F64.add (F64.lit (2 / 10)) (F64.lit (1 / 10))
        = fin (1351079888211149 / 4503599627370496) ∧
      F64.lit (3 / 10) = fin (5404319552844595 / 18014398509481984) ∧
      (F64.estimateCost ⟨F64.lit (152 / 10), F64.lit (112 / 10), F64.lit (72 / 10)⟩ "Box"
        (some (fin 1)) (some (F64.lit (8417 / 10)))).total ≠
        F64.add
          (F64.estimateCost ⟨F64.lit (152 / 10), F64.lit (112 / 10), F64.lit (72 / 10)⟩ "Box"
            (some (fin 1)) (some (F64.lit (8417 / 10)))).materialCost
          (F64.estimateCost ⟨F64.lit (152 / 10), F64.lit (112 / 10), F64.lit (72 / 10)⟩ "Box"
            (some (fin 1)) (some (F64.lit (8417 / 10)))).fillerCost := by
  decide!

/-- C20 (amended): for every box, packaging type, thickness level and void, the total
returned by `estimateCost` is `round1(materialCost + fillerCost)`, the sum and the
operations of `round1(x) = Math.round(x * 10) / 10` being binary64 operations.  The final
`round1` is not the identity: the double sum of two one-decimal doubles need not be a
one-decimal double (0.2 + 0.1 is 0.30000000000000004, and the total returned is 0.3). -/
theorem estimateCost_total_rounds_sum (box : BoxDimensions) (packagingType : String)
    (thicknessLevel voidSpace : Option JSNum) :
    (F64.estimateCost box packagingType thicknessLevel voidSpace).total =
        F64.round1 (F64.add
          (F64.estimateCost box packagingType thicknessLevel voidSpace).materialCost
          (F64.estimateCost box packagingType thicknessLevel voidSpace).fillerCost) ∧
      (∀ x : JSNum, F64.round1 x = F64.div (F64.mul x (fin 10)).round (fin 10)) ∧
      F64.round1 (F64.add (F64.lit (2 / 10)) (F64.lit (1 / 10))) = F64.lit (3 / 10) ∧
      F64.add (F64.lit (2 / 10)) (F64.lit (1 / 10)) ≠ F64.lit (3 / 10) :=
  ⟨rfl, fun _ => rfl, by decide!, by decide!⟩

/-! ## Rounding policy -/

/-- C15 fails as stated: ties are not rounded half away from zero.  `round1(-0.25)` is
-0.2, not -0.3, because `Math.round(-2.5)` is -2; the inline pattern of `predictPackaging`
does the same (width -3.25, weight 0, fragility LOW: raw width -0.25, returned -0.2).
`round1(0.25)` is 0.3. -/
theorem round1_tie_negative :
    round1 (fin (-25 / 100)) = fin (-2 / 10) ∧ round1 (fin (-25 / 100)) ≠ fin (-3 / 10) ∧
      round1 (fin (25 / 100)) = fin (3 / 10) ∧
      (predictions (numericProduct (-325 / 100) 1 1 0 .LOW)).getD 0 nan = fin (-25 / 100) ∧
      (predictPackaging (numericProduct (-325 / 100) 1 1 0 .LOW)).dimensions.width
        = fin (-2 / 10) := by
  decide!

/-- C15 (amended): `round1`, and the same inline pattern in `predictPackaging`, rounds to
one decimal place with ties rounded upward (toward plus infinity), not away from zero:
`Math.round(x)` is, for every finite `x`, the integer `n` with `x - 1/2 < n <= x + 1/2`,
so 0.25 rounds to 0.3 and -0.25 rounds to -0.2.  The multiplication and the division by
10 are binary64 operations, so the result is `floor(10 x + 1/2) / 10` only up to the
rounding of the doubles (`round1(0.44999999999999996)` is 0.5, not 0.4) and is `Infinity`
once `10 x` overflows (as for 2.4e307). -/
theorem round1_ties_upward (q : ℚ) :
    (∃ n : ℤ, (fin q).round = fin (n : ℚ) ∧ n = Int.floor (q + 1 / 2) ∧
      q - 1 / 2 < (n : ℚ) ∧ (n : ℚ) ≤ q + 1 / 2) ∧
    (∀ x : JSNum, F64.round1 x = F64.div (F64.mul x (fin 10)).round (fin 10)) ∧
    (∀ p : Product, (F64.predictPackaging p).dimensions =
      ⟨F64.div (F64.mul ((F64.predictions p).getD 0 nan) (fin 10)).round (fin 10),
        F64.div (F64.mul ((F64.predictions p).getD 1 nan) (fin 10)).round (fin 10),
        F64.div (F64.mul ((F64.predictions p).getD 2 nan) (fin 10)).round (fin 10)⟩) ∧
    F64.round1 (F64.lit (25 / 100)) = F64.lit (3 / 10) ∧
    F64.round1 (F64.lit (-25 / 100)) = F64.lit (-2 / 10) ∧
    F64.round1 (F64.lit (44999999999999996 / 10 ^ 17)) = F64.lit (5 / 10) ∧
    ((Int.floor (10 * (44999999999999996 / 10 ^ 17 : ℚ) + 1 / 2) : ℤ) : ℚ) / 10 = 4 / 10 ∧
    F64.round1 (F64.lit (24 * 10 ^ 306)) = posInf := by
  refine ⟨⟨Int.floor (q + 1 / 2), rfl, rfl, ?_, ?_⟩, fun _ => rfl, fun _ => rfl, by decide!,
    by decide!, by decide!, by decide!, by decide!⟩
  · have h := Int.lt_floor_add_one (q + 1 / 2)
    linarith
  · exact Int.floor_le (q + 1 / 2)

/-! ## The linear model -/

/-- C16 fails as stated: at width 1.35, height 5, depth 3, weight 1.25, fragility LOW the
binary64 sum `3 + 1.35 + 0.24 * 1.25` is 4.6499999999999995 and `predictPackaging` returns
the width 4.6, where `round1(3 + 1.35 + 0.24 * 1.25)` is `round1(4.65) = 4.7`, as the exact
reading gives; and at weight 1e308 every returned dimension is `Infinity`. -/
theorem predictPackaging_width_double_tie :
    (F64.predictions (F64.product (135 / 100) 5 3 (125 / 100) "LOW")).getD 0 nan
        = fin (5235434566818201 / 1125899906842624) ∧
      (5235434566818201 / 1125899906842624 : ℚ) < 465 / 100 ∧
      (F64.predictPackaging (F64.product (135 / 100) 5 3 (125 / 100) "LOW")).dimensions.width
        = F64.lit (46 / 10) ∧
      roundTenth (3 + 135 / 100 + 24 / 100 * (125 / 100) + 4 * 0) = 47 / 10 ∧
      (predictPackaging (numericProduct (135 / 100) 5 3 (125 / 100) .LOW)).dimensions.width
        = fin (47 / 10) ∧
      F64.lit (46 / 10) ≠ F64.lit (47 / 10) ∧ F64.lit (46 / 10) ≠ fin (47 / 10) ∧
      (F64.predictPackaging (F64.product 10 5 3 (10 ^ 308) "LOW")).dimensions
        = ⟨posInf, posInf, posInf⟩ := by
  decide!

/-- C16 (amended): for every product with numeric fields `w`, `h`, `d`, `wt` and fragility
ordinal `f` (LOW 0, MEDIUM 1, HIGH 2, EXTREME 3), the raw predictions of `predictPackaging`
are the four row sums `0 + c0 * 1 + c1 * w + c2 * h + c3 * d + c4 * wt + c5 * f`, taken
left to right in binary64, with rows (3, 1, 0, 0, 0.24, 4), (3, 0, 1, 0, 0.24, 4),
(3, 0, 0, 1, 0.24, 4) and (1, 0, 0, 0, 0.16, 0.6); the dimensions are the first three
sums rounded by `Math.round(x * 10) / 10` in binary64, the thickness level is
`min(max(round(fourth sum), 1), 7)`, and the thickness entry is the catalog entry at
index `level - 1`.  The dimensions are `round1(3 + x + 0.24 * weight + 4 * f)` of the
exact value only where no rounding of a double moves the sum across a tie or overflows. -/
theorem predictPackaging_linear_model_double (w h d wt : JSNum) (f : Fragility) :
    F64.predictions ⟨.num w, .num h, .num d, .num wt, some f.key⟩ =
        [ F64.weightedSum (fin 3) (fin 1) (fin 0) (fin 0) (F64.lit (24 / 100)) (fin 4)
            w h d wt (fin f.ordinal),
          F64.weightedSum (fin 3) (fin 0) (fin 1) (fin 0) (F64.lit (24 / 100)) (fin 4)
            w h d wt (fin f.ordinal),
          F64.weightedSum (fin 3) (fin 0) (fin 0) (fin 1) (F64.lit (24 / 100)) (fin 4)
            w h d wt (fin f.ordinal),
          F64.weightedSum (fin 1) (fin 0) (fin 0) (fin 0) (F64.lit (16 / 100))
            (F64.lit (6 / 10)) w h d wt (fin f.ordinal) ] ∧
      (F64.predictPackaging ⟨.num w, .num h, .num d, .num wt, some f.key⟩).dimensions =
        ⟨F64.round1 (F64.weightedSum (fin 3) (fin 1) (fin 0) (fin 0) (F64.lit (24 / 100))
            (fin 4) w h d wt (fin f.ordinal)),
          F64.round1 (F64.weightedSum (fin 3) (fin 0) (fin 1) (fin 0) (F64.lit (24 / 100))
            (fin 4) w h d wt (fin f.ordinal)),
          F64.round1 (F64.weightedSum (fin 3) (fin 0) (fin 0) (fin 1) (F64.lit (24 / 100))
            (fin 4) w h d wt (fin f.ordinal))⟩ ∧
      F64.thickLevel ⟨.num w, .num h, .num d, .num wt, some f.key⟩ =
        JSNum.min (JSNum.max
          (F64.weightedSum (fin 1) (fin 0) (fin 0) (fin 0) (F64.lit (16 / 100))
            (F64.lit (6 / 10)) w h d wt (fin f.ordinal)).round (fin 1)) (fin 7) ∧
      (F64.predictPackaging ⟨.num w, .num h, .num d, .num wt, some f.key⟩).thickness =
        arrayGet THICKNESS_LEVELS
          (F64.sub (F64.thickLevel ⟨.num w, .num h, .num d, .num wt, some f.key⟩) (fin 1)) ∧
      (∀ c0 c1 c2 c3 c4 c5 x1 x2 x3 x4 x5 : JSNum,
        F64.weightedSum c0 c1 c2 c3 c4 c5 x1 x2 x3 x4 x5 =
          F64.add (F64.add (F64.add (F64.add (F64.add (F64.add (fin 0) (F64.mul c0 (fin 1)))
            (F64.mul c1 x1)) (F64.mul c2 x2)) (F64.mul c3 x3)) (F64.mul c4 x4))
            (F64.mul c5 x5)) ∧
      (Fragility.LOW.ordinal = 0 ∧ Fragility.MEDIUM.ordinal = 1 ∧ Fragility.HIGH.ordinal = 2 ∧
        Fragility.EXTREME.ordinal = 3) := by
  have hp : F64.predictions ⟨.num w, .num h, .num d, .num wt, some f.key⟩ =
      [ F64.weightedSum (fin 3) (fin 1) (fin 0) (fin 0) (F64.lit (24 / 100)) (fin 4)
          w h d wt (fin f.ordinal),
        F64.weightedSum (fin 3) (fin 0) (fin 1) (fin 0) (F64.lit (24 / 100)) (fin 4)
          w h d wt (fin f.ordinal),
        F64.weightedSum (fin 3) (fin 0) (fin 0) (fin 1) (F64.lit (24 / 100)) (fin 4)
          w h d wt (fin f.ordinal),
        F64.weightedSum (fin 1) (fin 0) (fin 0) (fin 0) (F64.lit (16 / 100))
          (F64.lit (6 / 10)) w h d wt (fin f.ordinal) ] := by
    simp only [F64.predictions, F64.MODEL_WEIGHTS, modelInput, fValue_key, List.map]
    rfl
  refine ⟨hp, ?_, ?_, rfl, fun _ _ _ _ _ _ _ _ _ _ _ => rfl, rfl, rfl, rfl, rfl⟩
  · simp only [F64.predictPackaging, F64.predictedDimensions, hp]
    rfl
  · simp only [F64.thickLevel, hp]
    rfl

/-! ## The clearance floor on valid input -/

/-- C17: for every product with finite numeric dimensions and non-negative weight, every
fragility, packaging type and category, the box returned by `recommendBox` is exactly
the dimensions returned by `predictPackaging` for the coerced product, and each of them
exceeds the product dimension plus 1.2. -/
theorem recommendBox_floor_never_binds (w h d wt : ℚ) (hwt : 0 ≤ wt) (f : Fragility)
    (packagingType category : String) :
    (recommendBox (numericProduct w h d wt f) packagingType category).box =
        (predictPackaging (safeProduct (numericProduct w h d wt f))).dimensions ∧
      ∃ pw ph pd : ℚ,
        (predictPackaging (safeProduct (numericProduct w h d wt f))).dimensions
          = ⟨fin pw, fin ph, fin pd⟩ ∧
        w + 12 / 10 < pw ∧ h + 12 / 10 < ph ∧ d + 12 / 10 < pd := by
  have ho := ordinal_nonneg f
  have hc := clearanceFor_le category
  have hd : (predictPackaging (safeProduct (numericProduct w h d wt f))).dimensions =
      ⟨fin (roundTenth (3 + w + 24 / 100 * wt + 4 * f.ordinal)),
        fin (roundTenth (3 + h + 24 / 100 * wt + 4 * f.ordinal)),
        fin (roundTenth (3 + d + 24 / 100 * wt + 4 * f.ordinal))⟩ := by
    rw [safeProduct_numeric]
    exact predictedDimensions_numeric w h d wt f
  have hw1 := roundTenth_ge (3 + w + 24 / 100 * wt + 4 * f.ordinal)
  have hh1 := roundTenth_ge (3 + h + 24 / 100 * wt + 4 * f.ordinal)
  have hd1 := roundTenth_ge (3 + d + 24 / 100 * wt + 4 * f.ordinal)
  refine ⟨?_, _, _, _, hd, by linarith, by linarith, by linarith⟩
  rw [hd, recommendBox_box_numeric, (floor_holds w wt f.ordinal _ hwt ho hc).1,
    (floor_holds h wt f.ordinal _ hwt ho hc).1, (floor_holds d wt f.ordinal _ hwt ho hc).1]

/-- Witness of C17 at the product 10 x 5 x 3 of weight 0.5, fragility MEDIUM, category
Paper. -/
theorem recommendBox_floor_never_binds_witness :
    (recommendBox (numericProduct 10 5 3 (1 / 2) .MEDIUM) "Tube" "Paper").box =
        (predictPackaging (safeProduct (numericProduct 10 5 3 (1 / 2) .MEDIUM))).dimensions ∧
      ∃ pw ph pd : ℚ,
        (predictPackaging (safeProduct (numericProduct 10 5 3 (1 / 2) .MEDIUM))).dimensions
          = ⟨fin pw, fin ph, fin pd⟩ ∧
        10 + 12 / 10 < pw ∧ 5 + 12 / 10 < ph ∧ 3 + 12 / 10 < pd :=
  recommendBox_floor_never_binds 10 5 3 (1 / 2) (by norm_num) .MEDIUM "Tube" "Paper"

/-! ## Utilization and void percentage -/

theorem round_div_ten_tenth (x : JSNum) (u : ℚ) (h : x.round / fin 10 = fin u) :
    ∃ n : ℤ, u = (n : ℚ) / 10 := by
  cases x with
  | fin a =>
    rw [round_fin, fin_div_ten] at h
    injection h with h
    exact ⟨_, h.symm⟩
  | nan =>
    have e : (nan : JSNum).round / fin 10 = nan := by decide!
    rw [e] at h
    cases h
  | posInf =>
    have e : (posInf : JSNum).round / fin 10 = posInf := by decide!
    rw [e] at h
    cases h
  | negInf =>
    have e : (negInf : JSNum).round / fin 10 = negInf := by decide!
    rw [e] at h
    cases h

theorem void_of_tenth (n : ℤ) :
    ((fin 100 - fin ((n : ℚ) / 10)) * fin 10).round / fin 10 = fin (100 - (n : ℚ) / 10) := by
  simp only [fin_sub_fin, fin_mul_fin, round_fin, fin_div_ten]
  have h1 : (100 - (n : ℚ) / 10) * 10 + 1 / 2 = ((1000 - n : ℤ) : ℚ) + 1 / 2 := by
    push_cast
    ring
  have h2 : Int.floor (((1000 - n : ℤ) : ℚ) + 1 / 2) = 1000 - n := by
    rw [Int.floor_eq_iff]
    constructor <;> norm_num
  rw [h1, h2]
  congr 1
  push_cast
  ring

theorem void_of_utilization (x : JSNum) (u : ℚ) (h : x.round / fin 10 = fin u) :
    ((fin 100 - x.round / fin 10) * fin 10).round / fin 10 = fin (100 - u) := by
  obtain ⟨n, hn⟩ := round_div_ten_tenth x u h
  rw [h, hn, void_of_tenth]

/-- C18: in `predictPackaging` and in `recommendBox`, for every product, packaging type
and category, whenever the returned utilization is a finite number `u` the returned
voidPercent is the finite number `100 - u`, so that utilization + voidPercent = 100
exactly. -/
theorem utilization_plus_voidPercent (p : Product) (packagingType category : String) :
    (∀ u : ℚ, (predictPackaging p).utilization = fin u →
      (predictPackaging p).voidPercent = fin (100 - u) ∧
        (predictPackaging p).utilization + (predictPackaging p).voidPercent = fin 100) ∧
    (∀ u : ℚ, (recommendBox p packagingType category).utilization = fin u →
      (recommendBox p packagingType category).voidPercent = fin (100 - u) ∧
        (recommendBox p packagingType category).utilization +
          (recommendBox p packagingType category).voidPercent = fin 100) := by
  constructor
  · intro u hu
    have hv : (predictPackaging p).voidPercent = fin (100 - u) := by
      rw [predictPackaging_voidPercent]
      exact void_of_utilization _ u hu
    refine ⟨hv, ?_⟩
    rw [hv, hu, fin_add_fin]
    congr 1
    ring
  · intro u hu
    have hvp : (recommendBox p packagingType category).voidPercent =
        round1 (fin 100 - (recommendBox p packagingType category).utilization) := rfl
    have hut : (recommendBox p packagingType category).utilization =
        if JSNum.gt ((safeProduct p).width.toNumber * (safeProduct p).height.toNumber *
            (safeProduct p).depth.toNumber) (fin 0) then
          round1 (((safeProduct p).width.toNumber * (safeProduct p).height.toNumber *
              (safeProduct p).depth.toNumber) /
            ((recommendBox p packagingType category).box.width *
              (recommendBox p packagingType category).box.height *
              (recommendBox p packagingType category).box.depth) * fin 100)
        else fin 0 := rfl
    have hv : (recommendBox p packagingType category).voidPercent = fin (100 - u) := by
      rw [hvp]
      by_cases hg : JSNum.gt ((safeProduct p).width.toNumber * (safeProduct p).height.toNumber *
            (safeProduct p).depth.toNumber) (fin 0) = true
      · rw [hut, if_pos hg] at hu ⊢
        exact void_of_utilization _ u hu
      · rw [hut, if_neg hg] at hu ⊢
        injection hu with hu
        rw [← hu]
        simp only [fin_sub_fin, round1_fin]
        norm_num [roundTenth]
    refine ⟨hv, ?_⟩
    rw [hv, hu, fin_add_fin]
    congr 1
    ring

/-- Witness of C18 at the product 10 x 5 x 3 of weight 0.5, fragility LOW: utilization
23.2 and voidPercent 76.8 in both functions. -/
theorem utilization_plus_voidPercent_witness :
    ((predictPackaging (numericProduct 10 5 3 (1 / 2) .LOW)).voidPercent
        = fin (100 - 232 / 10) ∧
      (predictPackaging (numericProduct 10 5 3 (1 / 2) .LOW)).utilization +
        (predictPackaging (numericProduct 10 5 3 (1 / 2) .LOW)).voidPercent = fin 100) ∧
    ((recommendBox (numericProduct 10 5 3 (1 / 2) .LOW) "Box" "Glass").voidPercent
        = fin (100 - 232 / 10) ∧
      (recommendBox (numericProduct 10 5 3 (1 / 2) .LOW) "Box" "Glass").utilization +
        (recommendBox (numericProduct 10 5 3 (1 / 2) .LOW) "Box" "Glass").voidPercent
          = fin 100) :=
  ⟨(utilization_plus_voidPercent (numericProduct 10 5 3 (1 / 2) .LOW) "Box" "Glass").1
      (232 / 10) (by decide!),
    (utilization_plus_voidPercent (numericProduct 10 5 3 (1 / 2) .LOW) "Box" "Glass").2
      (232 / 10) (by decide!)⟩

/-! ## Independence of the packaging type -/

/-- C19: `recommendBox` does not depend on the packaging type: for every product, every
category and any two packaging types it returns the same record; the clearance added to
each product dimension is `minClearance`, chosen from the category alone. -/
theorem recommendBox_ignores_packagingType (p : Product) (category t1 t2 : String) :
    recommendBox p t1 category = recommendBox p t2 category ∧
      (recommendBox p t1 category).box =
        ⟨round1 (JSNum.max (predictPackaging (safeProduct p)).dimensions.width
            (numberOrZero p.width + minClearance category)),
          round1 (JSNum.max (predictPackaging (safeProduct p)).dimensions.height
            (numberOrZero p.height + minClearance category)),
          round1 (JSNum.max (predictPackaging (safeProduct p)).dimensions.depth
            (numberOrZero p.depth + minClearance category))⟩ ∧
      minClearance category = (if category = "Paper" then fin (5 / 10) else fin (12 / 10)) :=
  ⟨rfl, rfl, rfl⟩

/-! ## Monotonicity of the thickness level -/

theorem clamp_mono {a b : ℚ} (h : a ≤ b) :
    Min.min (Max.max a 1) 7 ≤ Min.min (Max.max b 1) 7 :=
  min_le_min (max_le_max h le_rfl) le_rfl

/-- C21: the thickness level chosen by `predictPackaging` is monotone in weight and
fragility and does not depend on the dimensions: for two products with finite numeric
fields, arbitrary dimensions, `weight1 <= weight2` and fragility ordinal of the first at
most that of the second, both get a thickness entry and the level of the first is at most
the level of the second (and likewise for the constant `thickLevel`). -/
theorem thickness_level_monotone (w1 h1 d1 wt1 w2 h2 d2 wt2 : ℚ) (f1 f2 : Fragility)
    (hwt : wt1 ≤ wt2) (hf : f1.ordinal ≤ f2.ordinal) :
    ∃ t1 t2 : ThicknessSpec,
      (predictPackaging (numericProduct w1 h1 d1 wt1 f1)).thickness = some t1 ∧
      (predictPackaging (numericProduct w2 h2 d2 wt2 f2)).thickness = some t2 ∧
      t1.level ≤ t2.level ∧
      thickLevel (numericProduct w1 h1 d1 wt1 f1) = fin (t1.level : ℚ) ∧
      thickLevel (numericProduct w2 h2 d2 wt2 f2) = fin (t2.level : ℚ) ∧
      JSNum.le (thickLevel (numericProduct w1 h1 d1 wt1 f1))
        (thickLevel (numericProduct w2 h2 d2 wt2 f2)) = true := by
  obtain ⟨k1, _, _, hk1, t1, _, ht1, hl1⟩ := thickness_numeric w1 h1 d1 wt1 f1
  obtain ⟨k2, _, _, hk2, t2, _, ht2, hl2⟩ := thickness_numeric w2 h2 d2 wt2 f2
  have hfloor : Int.floor (1 + 16 / 100 * wt1 + 6 / 10 * f1.ordinal + 1 / 2) ≤
      Int.floor (1 + 16 / 100 * wt2 + 6 / 10 * f2.ordinal + 1 / 2) :=
    Int.floor_mono (by linarith)
  have hcast : ((Int.floor (1 + 16 / 100 * wt1 + 6 / 10 * f1.ordinal + 1 / 2) : ℤ) : ℚ) ≤
      ((Int.floor (1 + 16 / 100 * wt2 + 6 / 10 * f2.ordinal + 1 / 2) : ℤ) : ℚ) := by
    exact_mod_cast hfloor
  have hq : (k1 : ℚ) ≤ (k2 : ℚ) := by
    have e1 := hk1
    have e2 := hk2
    rw [thickLevel_numeric] at e1 e2
    injection e1 with e1
    injection e2 with e2
    rw [← e1, ← e2]
    exact clamp_mono hcast
  have hk : k1 ≤ k2 := by exact_mod_cast hq
  refine ⟨t1, t2, ht1, ht2, by rw [hl1, hl2]; exact hk, by rw [hk1, hl1], by rw [hk2, hl2], ?_⟩
  rw [hk1, hk2, le_fin_fin]
  exact decide_eq_true hq

/-- Witness of C21: the product 2 x 2 x 2 of weight 1, fragility LOW, against the product
40 x 1 x 9 of weight 12, fragility HIGH. -/
theorem thickness_level_monotone_witness :
    ∃ t1 t2 : ThicknessSpec,
      (predictPackaging (numericProduct 2 2 2 1 .LOW)).thickness = some t1 ∧
      (predictPackaging (numericProduct 40 1 9 12 .HIGH)).thickness = some t2 ∧
      t1.level ≤ t2.level ∧
      thickLevel (numericProduct 2 2 2 1 .LOW) = fin (t1.level : ℚ) ∧
      thickLevel (numericProduct 40 1 9 12 .HIGH) = fin (t2.level : ℚ) ∧
      JSNum.le (thickLevel (numericProduct 2 2 2 1 .LOW))
        (thickLevel (numericProduct 40 1 9 12 .HIGH)) = true :=
  thickness_level_monotone 2 2 2 1 40 1 9 12 .LOW .HIGH (by norm_num)
    (by norm_num [Fragility.ordinal])

/-! ## Ranges of the recommendation -/

theorem roundTenth_hundred : roundTenth 100 = 100 := by
  norm_num [roundTenth]

theorem roundTenth_unit_range {q : ℚ} (h0 : 0 ≤ q) (h1 : q ≤ 100) :
    0 ≤ roundTenth q ∧ roundTenth q ≤ 100 :=
  ⟨roundTenth_nonneg h0, by rw [← roundTenth_hundred]; exact roundTenth_mono h1⟩

theorem recommendBox_utilization_numeric (w h d wt : ℚ) (f : Fragility)
    (packagingType category : String) (bw bh bd : ℚ)
    (hbox : (recommendBox (numericProduct w h d wt f) packagingType category).box
      = ⟨fin bw, fin bh, fin bd⟩) :
    (recommendBox (numericProduct w h d wt f) packagingType category).utilization =
        (if 0 < w * h * d then round1 (fin (w * h * d) / fin (bw * bh * bd) * fin 100)
          else fin 0) ∧
      (recommendBox (numericProduct w h d wt f) packagingType category).voidSpace =
        fin (roundTenth (bw * bh * bd - w * h * d)) := by
  have hu : (recommendBox (numericProduct w h d wt f) packagingType category).utilization =
      if JSNum.gt (fin (w * h * d)) (fin 0) then
        round1 (fin (w * h * d) /
          ((recommendBox (numericProduct w h d wt f) packagingType category).box.width *
           (recommendBox (numericProduct w h d wt f) packagingType category).box.height *
           (recommendBox (numericProduct w h d wt f) packagingType category).box.depth)
          * fin 100)
      else fin 0 := by
    simp [recommendBox, safeProduct_numeric]
  have hvs : (recommendBox (numericProduct w h d wt f) packagingType category).voidSpace =
      round1 ((recommendBox (numericProduct w h d wt f) packagingType category).box.width *
           (recommendBox (numericProduct w h d wt f) packagingType category).box.height *
           (recommendBox (numericProduct w h d wt f) packagingType category).box.depth
           - fin (w * h * d)) := by
    simp [recommendBox, safeProduct_numeric]
  rw [hbox] at hu hvs
  constructor
  · rw [hu]
    simp
  · rw [hvs]
    simp only [fin_mul_fin, fin_sub_fin, round1_fin]

theorem volume_lt {w h d bw bh bd : ℚ} (hw : 0 ≤ w) (hh : 0 ≤ h) (hd : 0 ≤ d)
    (h1 : w < bw) (h2 : h < bh) (h3 : d < bd) : w * h * d < bw * bh * bd := by
  have hwh : w * h ≤ bw * bh := mul_le_mul (le_of_lt h1) (le_of_lt h2) hh (by linarith)
  have hpos : 0 < bw * bh := mul_pos (by linarith) (by linarith)
  calc w * h * d ≤ bw * bh * d := mul_le_mul_of_nonneg_right hwh hd
    _ < bw * bh * bd := mul_lt_mul_of_pos_left h3 hpos

/-- C22 fails as stated: in binary64, at width 1e308 (height 5, depth 3, weight 0.5,
fragility LOW) `recommendBox` returns the width `Infinity` and `NaN` for utilization,
voidPercent and voidSpace; and for the cube of side 9.7e20 it returns a box of side
969999999999999868928, smaller than the product, and a negative voidSpace. -/
theorem recommendBox_ranges_overflow :
    (F64.recommendBox (F64.product (10 ^ 308) 5 3 (1 / 2) "LOW") "Box" "Glass").box.width
        = posInf ∧
      (F64.recommendBox (F64.product (10 ^ 308) 5 3 (1 / 2) "LOW") "Box" "Glass").utilization
        = nan ∧
      (F64.recommendBox (F64.product (10 ^ 308) 5 3 (1 / 2) "LOW") "Box" "Glass").voidPercent
        = nan ∧
      (F64.recommendBox (F64.product (10 ^ 308) 5 3 (1 / 2) "LOW") "Box" "Glass").voidSpace
        = nan ∧
      F64.lit (97 * 10 ^ 19) = fin (97 * 10 ^ 19) ∧
      (F64.recommendBox (F64.product (97 * 10 ^ 19) (97 * 10 ^ 19) (97 * 10 ^ 19) 0 "LOW")
        "Box" "Glass").box
          = ⟨fin 969999999999999868928, fin 969999999999999868928,
              fin 969999999999999868928⟩ ∧
      (969999999999999868928 : ℚ) < 97 * 10 ^ 19 ∧
      JSNum.lt (F64.recommendBox (F64.product (97 * 10 ^ 19) (97 * 10 ^ 19) (97 * 10 ^ 19) 0
        "LOW") "Box" "Glass").voidSpace (fin 0) = true := by
  decide!

/-- C22 (amended): for every product with non-negative width, height, depth and weight,
none above 1,000,000, every fragility, packaging type and category, `recommendBox`
returns finite utilization, voidPercent and voidSpace with `0 <= utilization <= 100`,
`0 <= voidPercent <= 100` and `voidSpace >= 0`, and the volume of the recommended box is
larger than the product volume. -/
theorem recommendBox_ranges_bounded (w h d wt : ℚ) (hw : 0 ≤ w) (hh : 0 ≤ h) (hd : 0 ≤ d)
    (hwt : 0 ≤ wt) (bw1 : w ≤ 1000000) (bh1 : h ≤ 1000000) (bd1 : d ≤ 1000000)
    (bwt1 : wt ≤ 1000000) (f : Fragility) (packagingType category : String) :
    ∃ u vp vs bw bh bd : ℚ,
      (recommendBox (numericProduct w h d wt f) packagingType category).utilization = fin u ∧
      (recommendBox (numericProduct w h d wt f) packagingType category).voidPercent = fin vp ∧
      (recommendBox (numericProduct w h d wt f) packagingType category).voidSpace = fin vs ∧
      (recommendBox (numericProduct w h d wt f) packagingType category).box
        = ⟨fin bw, fin bh, fin bd⟩ ∧
      0 ≤ u ∧ u ≤ 100 ∧ 0 ≤ vp ∧ vp ≤ 100 ∧ 0 ≤ vs ∧ w * h * d < bw * bh * bd := by
  have ho := ordinal_nonneg f
  have hc := clearanceFor_le category
  have hbox := recommendBox_box_numeric w h d wt f packagingType category
  rw [(floor_holds w wt f.ordinal _ hwt ho hc).1, (floor_holds h wt f.ordinal _ hwt ho hc).1,
    (floor_holds d wt f.ordinal _ hwt ho hc).1] at hbox
  have g1 := roundTenth_ge (3 + w + 24 / 100 * wt + 4 * f.ordinal)
  have g2 := roundTenth_ge (3 + h + 24 / 100 * wt + 4 * f.ordinal)
  have g3 := roundTenth_ge (3 + d + 24 / 100 * wt + 4 * f.ordinal)
  generalize roundTenth (3 + w + 24 / 100 * wt + 4 * f.ordinal) = bw at hbox g1
  generalize roundTenth (3 + h + 24 / 100 * wt + 4 * f.ordinal) = bh at hbox g2
  generalize roundTenth (3 + d + 24 / 100 * wt + 4 * f.ordinal) = bd at hbox g3
  have hvol : w * h * d < bw * bh * bd :=
    volume_lt hw hh hd (by linarith) (by linarith) (by linarith)
  have hpv : 0 ≤ w * h * d := mul_nonneg (mul_nonneg hw hh) hd
  have hbv : 0 < bw * bh * bd := lt_of_le_of_lt hpv hvol
  obtain ⟨hu, hvs⟩ := recommendBox_utilization_numeric w h d wt f packagingType category
    bw bh bd hbox
  have hvp : (recommendBox (numericProduct w h d wt f) packagingType category).voidPercent =
      round1 (fin 100 -
        (recommendBox (numericProduct w h d wt f) packagingType category).utilization) := rfl
  have hratio : 0 ≤ w * h * d / (bw * bh * bd) * 100 ∧ w * h * d / (bw * bh * bd) * 100 ≤ 100 := by
    constructor
    · exact mul_nonneg (div_nonneg hpv (le_of_lt hbv)) (by norm_num)
    · have : w * h * d / (bw * bh * bd) ≤ 1 := (div_le_one hbv).mpr (le_of_lt hvol)
      linarith
  have hU : ∃ u : ℚ,
      (recommendBox (numericProduct w h d wt f) packagingType category).utilization = fin u ∧
        0 ≤ u ∧ u ≤ 100 := by
    by_cases hpos : 0 < w * h * d
    · refine ⟨roundTenth (w * h * d / (bw * bh * bd) * 100), ?_,
        roundTenth_unit_range hratio.1 hratio.2⟩
      rw [hu, if_pos hpos, fin_div_fin _ _ (ne_of_gt hbv)]
      simp only [fin_mul_fin, round1_fin]
    · exact ⟨0, by rw [hu, if_neg hpos], le_rfl, by norm_num⟩
  obtain ⟨u, hue, hu0, hu100⟩ := hU
  refine ⟨u, roundTenth (100 - u), roundTenth (bw * bh * bd - w * h * d), bw, bh, bd, hue, ?_,
    hvs, hbox, hu0, hu100, ?_, ?_, roundTenth_nonneg (by linarith), hvol⟩
  · rw [hvp, hue, fin_sub_fin, round1_fin]
  · exact (roundTenth_unit_range (q := 100 - u) (by linarith) (by linarith)).1
  · exact (roundTenth_unit_range (q := 100 - u) (by linarith) (by linarith)).2

/-- Witness of C22 (amended) at the product 10 x 5 x 3 of weight 0.5, fragility LOW. -/
theorem recommendBox_ranges_bounded_witness :
    ∃ u vp vs bw bh bd : ℚ,
      (recommendBox (numericProduct 10 5 3 (1 / 2) .LOW) "Box" "Glass").utilization = fin u ∧
      (recommendBox (numericProduct 10 5 3 (1 / 2) .LOW) "Box" "Glass").voidPercent = fin vp ∧
      (recommendBox (numericProduct 10 5 3 (1 / 2) .LOW) "Box" "Glass").voidSpace = fin vs ∧
      (recommendBox (numericProduct 10 5 3 (1 / 2) .LOW) "Box" "Glass").box
        = ⟨fin bw, fin bh, fin bd⟩ ∧
      0 ≤ u ∧ u ≤ 100 ∧ 0 ≤ vp ∧ vp ≤ 100 ∧ 0 ≤ vs ∧ 10 * 5 * 3 < bw * bh * bd :=
  recommendBox_ranges_bounded 10 5 3 (1 / 2) (by norm_num) (by norm_num) (by norm_num)
    (by norm_num) (by norm_num) (by norm_num) (by norm_num) (by norm_num) .LOW "Box" "Glass"

end SmartPack
